import Mathlib

/-
Verification of the adaptive audio playout engine (NetEq) specification.

The repository ships the engine's unit tests (neteq_unittest.cc and
neteq_external_decoder_test.cc) but not the engine implementation itself,
so the engine is modelled from the natural-language specification.
Every definition carrying a doc comment starting with "Modelled from the
spec:" embeds behaviour of the missing NetEq implementation
(webrtc/modules/audio_coding/neteq), faithful to the specification's words
and to the external behaviour its tests assert.
-/

/-- Modelled from the spec: 16-bit wraparound modulus for RTP sequence
numbers (the NetEq implementation is missing from src; only its tests are
present). -/
def seqMod : Nat := 65536

/-- Modelled from the spec: 32-bit wraparound modulus for RTP media
timestamps. -/
def tsMod : Nat := 4294967296

/-- Modelled from the spec: the four capability classes of a decoder
registration: speech/audio, comfort-noise, out-of-band event (AVT/DTMF)
and redundancy (RED). -/
inductive CodecClass where
  | speech
  | cng
  | avt
  | red
deriving DecidableEq, Repr

/-- Modelled from the spec: identifiers of the built-in codecs the tests
register (NetEqDecoder values). -/
inductive CodecId where
  | pcmu
  | pcma
  | pcm16b8
  | pcm16b16
  | pcm16b32
  | isac
  | cngNb
  | cngWb
  | cngSwb32
  | cngSwb48
  | avt
  | red
deriving DecidableEq, Repr

/-- Modelled from the spec: capability class of each codec; class
membership is immutable per registration and gates operation legality. -/
def codecClass : CodecId → CodecClass
  | .cngNb => .cng
  | .cngWb => .cng
  | .cngSwb32 => .cng
  | .cngSwb48 => .cng
  | .avt => .avt
  | .red => .red
  | _ => .speech

/-- Modelled from the spec: native sample rate of each codec in Hz. -/
def codecRateHz : CodecId → Nat
  | .pcmu => 8000
  | .pcma => 8000
  | .pcm16b8 => 8000
  | .cngNb => 8000
  | .avt => 8000
  | .red => 8000
  | .pcm16b16 => 16000
  | .isac => 16000
  | .cngWb => 16000
  | .pcm16b32 => 32000
  | .cngSwb32 => 32000
  | .cngSwb48 => 48000

/-- Modelled from the spec: the iSAC decoder's nominal frame length in
16 kHz samples (30 ms). -/
def isacFrameSamples : Nat := 480

/-- Modelled from the spec: the iSAC native error code for a payload
length mismatch (ISAC_LENGTH_MISMATCH in the tests). -/
def isacLengthMismatch : Int := 6730

/-- Modelled from the spec: the pluggable decoder capability, one method
decode(payload) to samples; built-in waveform codecs pass samples
through, while the modelled iSAC decoder rejects payloads that are not a
whole number of 30 ms frames, exposing its native error code. -/
def decodeSpeechPayload (c : CodecId) (payload : List Nat) : Except Int (List Nat) :=
  match c with
  | .isac =>
      if payload.length % isacFrameSamples = 0 ∧ payload.length ≠ 0 then
        Except.ok payload
      else
        Except.error isacLengthMismatch
  | _ => Except.ok payload

/-- Modelled from the spec: RTP header of a packet: sequence number
(16-bit, wraps), media timestamp (32-bit, wraps), stream identifier
(SSRC) and payload-type identifier. -/
structure RtpHeader where
  sequenceNumber : Nat
  timestamp : Nat
  ssrc : Nat
  payloadType : Nat
deriving DecidableEq, Repr

/-- Modelled from the spec: a buffered packet: header, payload (decoded
samples for the modelled waveform codecs, parameters for comfort noise),
a placeholder (sync) flag, and the arrival time in ms used by the
waiting-time statistic. -/
structure Packet where
  header : RtpHeader
  payload : List Nat
  isSync : Bool
  arrivalMs : Nat
deriving DecidableEq, Repr

/-- Modelled from the spec: output classification tag of a pulled frame:
normal decoding, concealment (PLC), comfort noise, or the
concealment-to-comfort-noise transition. -/
inductive OutputType where
  | normal
  | plc
  | cng
  | plcCng
deriving DecidableEq, Repr

/-- Modelled from the spec: last-error classifications surfaced by the
LastError accessor. -/
inductive NetEqError where
  | unknownRtpPayloadType
  | decoderErrorCode
  | syncPacketNotAccepted
deriving DecidableEq, Repr

/-- Modelled from the spec: statistics accumulators of the tracker: the
waiting-time histogram (reset on read) and lifetime counters for lost,
discarded and concealed content. -/
structure Stats where
  waitingTimesMs : List Nat
  lostPackets : Nat
  discardedPackets : Nat
  expandTicks : Nat
deriving DecidableEq, Repr

/-- Modelled from the spec: engine configuration: initial output sample
rate and the fixed algorithmic delay in ms. -/
structure Config where
  sampleRateHz : Nat
  algorithmicDelayMs : Nat
deriving DecidableEq, Repr

/-- Modelled from the spec: the complete per-stream engine state: codec
registry, packet buffer, playout controller state and statistics
tracker. -/
structure State where
  cfg : Config
  registry : List (Nat × CodecId)
  buffer : List Packet
  firstPacketReceived : Bool
  streamSsrc : Nat
  lastInsertedPayloadType : Option Nat
  activePayloadType : Option Nat
  sampleRateHz : Nat
  pending : List Nat
  playoutTs : Nat
  mode : OutputType
  lastCngHeader : Option RtpHeader
  lastCngPayload : List Nat
  lastFrameSamples : Nat
  lastDecodedSeq : Option Nat
  preferredBufferSizeMs : Nat
  ticks : Nat
  stats : Stats
  lastError : Option NetEqError
  lastDecoderError : Int
deriving DecidableEq, Repr

/-- Modelled from the spec: one pulled audio frame: the caller's data
buffer (only the first samplesPerChannel entries are overwritten), the
per-channel sample count, and the output sample rate. -/
structure Frame where
  data : List Nat
  samplesPerChannel : Nat
  sampleRateHz : Nat
deriving DecidableEq, Repr

/-- Modelled from the spec: payload-type lookup in the registry. -/
def lookupPayload : List (Nat × CodecId) → Nat → Option CodecId
  | [], _ => none
  | (q, c) :: rest, pt => if q = pt then some c else lookupPayload rest pt

/-- Modelled from the spec: forward distance from y to x in 32-bit
wraparound timestamp arithmetic. -/
def tsDiff (x y : Nat) : Nat := (x + tsMod - y % tsMod) % tsMod

/-- Modelled from the spec: x is strictly newer than y modulo 32-bit
wraparound. -/
def tsNewer (x y : Nat) : Prop := 0 < tsDiff x y ∧ tsDiff x y < tsMod / 2

instance (x y : Nat) : Decidable (tsNewer x y) := by
  unfold tsNewer
  infer_instance

/-- Modelled from the spec: ordered insertion into the packet buffer,
placing the packet before the first strictly newer buffered packet. -/
def insertByTs (p : Packet) : List Packet → List Packet
  | [] => [p]
  | q :: qs =>
      if tsNewer q.header.timestamp p.header.timestamp then p :: q :: qs
      else q :: insertByTs p qs

/-- Modelled from the spec: a placeholder packet is superseded by a
later-arriving real packet carrying the same sequence number and
timestamp; this drops such placeholders before the real insertion. -/
def removeSupersededSync (hdr : RtpHeader) (buf : List Packet) : List Packet :=
  buf.filter fun q =>
    !(q.isSync && q.header.sequenceNumber == hdr.sequenceNumber &&
      q.header.timestamp == hdr.timestamp)

/-- Modelled from the spec: number of samples in one fixed 10 ms output
frame at the current output sample rate. -/
def frameSamples (st : State) : Nat := st.sampleRateHz / 100

/-- Modelled from the spec: register a payload type; re-registration at
the same id replaces the prior entry. -/
def registerPayloadType (st : State) (codec : CodecId) (pt : Nat) : State :=
  { st with registry := (pt, codec) :: st.registry.filter (fun q => q.1 != pt) }

/-- Modelled from the spec: the fresh engine state for a configuration:
empty registry and buffer, output rate at the configured initial rate. -/
def initState (cfg : Config) : State :=
  { cfg := cfg
    registry := []
    buffer := []
    firstPacketReceived := false
    streamSsrc := 0
    lastInsertedPayloadType := none
    activePayloadType := none
    sampleRateHz := cfg.sampleRateHz
    pending := []
    playoutTs := 0
    mode := .normal
    lastCngHeader := none
    lastCngPayload := []
    lastFrameSamples := cfg.sampleRateHz / 100
    lastDecodedSeq := none
    preferredBufferSizeMs := 0
    ticks := 0
    stats := ⟨[], 0, 0, 0⟩
    lastError := none
    lastDecoderError := 0 }

/-- Modelled from the spec: InsertPacket: validates the payload type
against the registry, deduplicates a comfort-noise packet identical to
the one just consumed, discards stale packets (older than the played-out
position) counting them toward the discard statistic, and otherwise
stores the packet in timestamp order, superseding any placeholder with
the same sequence number and timestamp. Returns 0 on success and -1 with
the last-error classification on failure. -/
def insertPacket (st : State) (hdr : RtpHeader) (payload : List Nat)
    (_receiveTs : Nat) : State × Int :=
  match lookupPayload st.registry hdr.payloadType with
  | none => ({ st with lastError := some .unknownRtpPayloadType }, -1)
  | some codec =>
      if codecClass codec = CodecClass.cng ∧ st.lastCngHeader = some hdr ∧
          st.lastCngPayload = payload then
        (st, 0)
      else if st.firstPacketReceived ∧ tsNewer st.playoutTs hdr.timestamp then
        ({ st with stats := { st.stats with
              discardedPackets := st.stats.discardedPackets + 1 } }, 0)
      else
        let p : Packet := ⟨hdr, payload, false, st.ticks * 10⟩
        ({ st with
            buffer := insertByTs p (removeSupersededSync hdr st.buffer)
            firstPacketReceived := true
            streamSsrc := hdr.ssrc
            playoutTs := if st.firstPacketReceived then st.playoutTs
                         else hdr.timestamp % tsMod
            lastInsertedPayloadType :=
              if codecClass codec = CodecClass.speech then some hdr.payloadType
              else st.lastInsertedPayloadType
            preferredBufferSizeMs :=
              if codecClass codec = CodecClass.speech ∧ payload.length ≠ 0 then
                payload.length * 1000 / codecRateHz codec
              else st.preferredBufferSizeMs }, 0)

/-- Modelled from the spec: InsertPlaceholderPacket (InsertSyncPacket):
fails if it would be the first packet ever inserted, if the payload type
is unregistered or registered as comfort-noise, out-of-band event or
redundancy, if it would change the active speech payload type, or if the
stream identifier differs from the established one; otherwise stores a
payload-less placeholder packet. -/
def insertSyncPacket (st : State) (hdr : RtpHeader) (_receiveTs : Nat) :
    State × Int :=
  if ¬ st.firstPacketReceived then
    ({ st with lastError := some .syncPacketNotAccepted }, -1)
  else
    match lookupPayload st.registry hdr.payloadType with
    | none => ({ st with lastError := some .unknownRtpPayloadType }, -1)
    | some codec =>
        if codecClass codec = CodecClass.cng ∨ codecClass codec = CodecClass.avt ∨
            codecClass codec = CodecClass.red then
          ({ st with lastError := some .syncPacketNotAccepted }, -1)
        else if st.lastInsertedPayloadType ≠ some hdr.payloadType then
          ({ st with lastError := some .syncPacketNotAccepted }, -1)
        else if hdr.ssrc ≠ st.streamSsrc then
          ({ st with lastError := some .syncPacketNotAccepted }, -1)
        else
          ({ st with
              buffer := insertByTs ⟨hdr, [], true, st.ticks * 10⟩ st.buffer }, 0)

/-- Modelled from the spec: records the per-packet waiting time and
sequence-gap loss accounting when a packet is consumed. -/
def recordDecodeStats (st : State) (p : Packet) : State :=
  let wait := (st.ticks + 1) * 10 - p.arrivalMs
  let lost :=
    match st.lastDecodedSeq with
    | none => 0
    | some s =>
        (p.header.sequenceNumber % seqMod + seqMod - s % seqMod) % seqMod - 1
  { st with
      stats := { st.stats with
        waitingTimesMs := st.stats.waitingTimesMs ++ [wait]
        lostPackets := st.stats.lostPackets + lost }
      lastDecodedSeq := some (p.header.sequenceNumber % seqMod) }

/-- Modelled from the spec: result of trying to gather one output frame
worth of decoded audio. -/
inductive RefillOutcome where
  | filled
  | starved
  | cngFrame
  | decodeFail (code : Int)
deriving DecidableEq, Repr

/-- Modelled from the spec: the per-tick decode loop: consume packets
from the buffer until a full 10 ms frame of decoded audio is pending.
A comfort-noise packet switches to comfort-noise synthesis and pins the
playout timestamp at its timestamp; a placeholder decodes to zeros of
the last real frame length; a speech packet is decoded by its registered
capability, switching the output rate to the codec's native rate, while
a decoder failure aborts the pull recording the native error code. -/
def refill : State → Nat → State × RefillOutcome
  | st, 0 => (st, .starved)
  | st, fuel + 1 =>
      if st.pending.length ≥ frameSamples st then (st, .filled)
      else
        match st.buffer with
        | [] => (st, .starved)
        | p :: rest =>
            match lookupPayload st.registry p.header.payloadType with
            | none => refill { st with buffer := rest } fuel
            | some codec =>
                match codecClass codec with
                | .cng =>
                    ({ st with
                        buffer := rest
                        pending := []
                        playoutTs := p.header.timestamp % tsMod
                        lastCngHeader := some p.header
                        lastCngPayload := p.payload
                        lastDecodedSeq := some (p.header.sequenceNumber % seqMod)
                        mode := .cng }, .cngFrame)
                | .avt => refill { st with buffer := rest } fuel
                | .red => refill { st with buffer := rest } fuel
                | .speech =>
                    if p.isSync then
                      let samples := List.replicate st.lastFrameSamples 0
                      let st1 := recordDecodeStats st p
                      refill { st1 with
                          buffer := rest
                          playoutTs :=
                            if st1.pending.isEmpty then p.header.timestamp % tsMod
                            else st1.playoutTs
                          pending := st1.pending ++ samples } fuel
                    else
                      match decodeSpeechPayload codec p.payload with
                      | .error e =>
                          ({ st with
                              buffer := rest
                              sampleRateHz := codecRateHz codec
                              activePayloadType := some p.header.payloadType
                              lastError := some .decoderErrorCode
                              lastDecoderError := e }, .decodeFail e)
                      | .ok samples =>
                          let st1 := recordDecodeStats st p
                          refill { st1 with
                              buffer := rest
                              playoutTs :=
                                if st1.pending.isEmpty then p.header.timestamp % tsMod
                                else st1.playoutTs
                              pending := st1.pending ++ samples
                              sampleRateHz := codecRateHz codec
                              activePayloadType := some p.header.payloadType
                              lastFrameSamples := samples.length } fuel

/-- Modelled from the spec: PullAudioFrame (GetAudio): refills the
pending audio and emits exactly one fixed 10 ms frame at the current
output sample rate, never failing to produce a frame: a full frame of
decoded audio plays normally, comfort noise synthesizes a zero frame
with the playout timestamp pinned, starvation conceals with a zero-padded
frame, and a decoder failure returns -1 while still producing a frame
whose undecodable 10 ms block is zero-filled and whose remaining caller
samples are preserved. -/
def getAudio (st0 : State) (old : List Nat) :
    State × Int × Frame × OutputType :=
  let r := refill st0 (st0.buffer.length + 1)
  let st := r.1
  match r.2 with
  | .decodeFail _ =>
      let n := frameSamples st
      ({ st with ticks := st.ticks + 1, mode := .plc },
       -1, ⟨List.replicate n 0 ++ old.drop n, n, st.sampleRateHz⟩, .plc)
  | .filled =>
      let n := frameSamples st
      let out := st.pending.take n
      ({ st with
          pending := st.pending.drop n
          playoutTs := (st.playoutTs + n) % tsMod
          mode := .normal
          ticks := st.ticks + 1 },
       0, ⟨out ++ old.drop n, n, st.sampleRateHz⟩, .normal)
  | .cngFrame =>
      let n := frameSamples st
      ({ st with ticks := st.ticks + 1 },
       0, ⟨List.replicate n 0 ++ old.drop n, n, st.sampleRateHz⟩, .cng)
  | .starved =>
      let n := frameSamples st
      if st.mode = .cng then
        ({ st with ticks := st.ticks + 1, pending := [] },
         0, ⟨List.replicate n 0 ++ old.drop n, n, st.sampleRateHz⟩, .cng)
      else
        let out := st.pending ++ List.replicate (n - st.pending.length) 0
        ({ st with
            pending := []
            playoutTs := (st.playoutTs + n) % tsMod
            mode := .plc
            ticks := st.ticks + 1
            stats := { st.stats with expandTicks := st.stats.expandTicks + 1 } },
         0, ⟨out ++ old.drop n, n, st.sampleRateHz⟩, .plc)

/-- Modelled from the spec: the reported last output sample rate. -/
def lastOutputSampleRateHz (st : State) : Nat := st.sampleRateHz

/-- Modelled from the spec: algorithmic delay converted to samples at the
current output rate. -/
def delaySamples (st : State) : Nat :=
  st.cfg.algorithmicDelayMs * st.sampleRateHz / 1000

/-- Modelled from the spec: GetPlayoutTimestamp: the cumulative
played-out position minus the algorithmic delay, in 32-bit media
timestamp units; unavailable before the first frame is pulled. -/
def getPlayoutTimestamp (st : State) : Option Nat :=
  if st.ticks = 0 then none
  else some ((st.playoutTs + tsMod - delaySamples st % tsMod) % tsMod)

/-- Modelled from the spec: sorted insertion used by the waiting-time
median. -/
def insertSortedNat (x : Nat) : List Nat → List Nat
  | [] => [x]
  | y :: ys => if x ≤ y then x :: y :: ys else y :: insertSortedNat x ys

/-- Modelled from the spec: insertion sort over the recorded waiting
times. -/
def sortNatList : List Nat → List Nat
  | [] => []
  | x :: xs => insertSortedNat x (sortNatList xs)

/-- Modelled from the spec: sum of a list of waiting times. -/
def sumNatList : List Nat → Nat
  | [] => 0
  | x :: xs => x + sumNatList xs

/-- Modelled from the spec: mean waiting time, -1 when the histogram is
empty. -/
def meanOf (l : List Nat) : Int :=
  match l with
  | [] => -1
  | _ => Int.ofNat (sumNatList l / l.length)

/-- Modelled from the spec: median waiting time (average of the two
middle values for an even count), -1 when the histogram is empty. -/
def medianOf (l : List Nat) : Int :=
  match l with
  | [] => -1
  | _ =>
      let s := sortNatList l
      if l.length % 2 = 0 then
        Int.ofNat ((s.getD (l.length / 2 - 1) 0 + s.getD (l.length / 2) 0) / 2)
      else
        Int.ofNat (s.getD (l.length / 2) 0)

/-- Modelled from the spec: minimum waiting time, -1 when empty. -/
def minimumOf : List Nat → Int
  | [] => -1
  | x :: xs => Int.ofNat (xs.foldl Nat.min x)

/-- Modelled from the spec: maximum waiting time, -1 when empty. -/
def maximumOf : List Nat → Int
  | [] => -1
  | x :: xs => Int.ofNat (xs.foldl Nat.max x)

/-- Modelled from the spec: duration in samples of one buffered packet;
a placeholder counts as the last real frame length. -/
def packetDurationSamples (st : State) (p : Packet) : Nat :=
  if p.isSync then st.lastFrameSamples else p.payload.length

/-- Modelled from the spec: total audio currently held, in samples:
decoded pending audio plus everything in the packet buffer. -/
def bufferedSamples (st : State) : Nat :=
  st.pending.length +
    st.buffer.foldl (fun a p => a + packetDurationSamples st p) 0

/-- Modelled from the spec: the point-in-time network statistics
snapshot. -/
structure NetworkStatistics where
  currentBufferSizeMs : Nat
  preferredBufferSizeMs : Nat
  packetLossRate : Nat
  packetDiscardRate : Nat
  expandRate : Nat
  accelerateRate : Nat
  preemptiveRate : Nat
  meanWaitingTimeMs : Int
  medianWaitingTimeMs : Int
  minWaitingTimeMs : Int
  maxWaitingTimeMs : Int
deriving DecidableEq, Repr

/-- Modelled from the spec: GetStatistics: returns the snapshot and
clears the waiting-time histogram; rate counters persist across reads. -/
def networkStatistics (st : State) : NetworkStatistics × State :=
  (⟨bufferedSamples st * 1000 / st.sampleRateHz + st.cfg.algorithmicDelayMs,
    st.preferredBufferSizeMs,
    st.stats.lostPackets,
    st.stats.discardedPackets,
    st.stats.expandTicks,
    0,
    0,
    meanOf st.stats.waitingTimesMs,
    medianOf st.stats.waitingTimesMs,
    minimumOf st.stats.waitingTimesMs,
    maximumOf st.stats.waitingTimesMs⟩,
   { st with stats := { st.stats with waitingTimesMs := [] } })

/-- Modelled from the spec: the default test configuration: 8 kHz
initial sample rate and no extra algorithmic delay. -/
def defaultConfig : Config := ⟨8000, 0⟩

/-- Modelled from the spec: the decoder registrations performed by the
tests at setup (LoadDecoders). -/
def loadDecoders (st : State) : State :=
  let st := registerPayloadType st .pcmu 0
  let st := registerPayloadType st .pcma 8
  let st := registerPayloadType st .isac 103
  let st := registerPayloadType st .pcm16b8 93
  let st := registerPayloadType st .pcm16b16 94
  let st := registerPayloadType st .pcm16b32 95
  let st := registerPayloadType st .cngNb 13
  let st := registerPayloadType st .cngWb 98
  st

/-- Modelled from the spec: the engine state right after test setup. -/
def setupState : State := loadDecoders (initState defaultConfig)

/-- Pulls audio repeatedly, discarding the frames. -/
def pullN (st : State) : Nat → State
  | 0 => st
  | m + 1 => pullN (getAudio st []).1 m

theorem take_append_left (l m : List Nat) : (l ++ m).take l.length = l :=
  List.take_left l m

theorem replicate_zero_all_eq (n : Nat) :
    (List.replicate n (0 : Nat)).all (fun x => x == 0) = true := by
  induction n with
  | zero => rfl
  | succ k ih => simp [List.replicate_succ, List.all_cons, ih]

/-- C1: the very first pull, before any packet has ever been inserted,
succeeds and emits one silent 10 ms frame at the initial configured
sample rate, and the reported output sample rate equals the configured
initial rate. -/
theorem claim_C1 (cfg : Config) (old : List Nat)
    (h : 0 < cfg.sampleRateHz / 100) :
    (getAudio (loadDecoders (initState cfg)) old).2.1 = 0 ∧
    (getAudio (loadDecoders (initState cfg)) old).2.2.1.samplesPerChannel =
      cfg.sampleRateHz / 100 ∧
    ((getAudio (loadDecoders (initState cfg)) old).2.2.1.data.take
        (cfg.sampleRateHz / 100)).all (fun x => x == 0) = true ∧
    (getAudio (loadDecoders (initState cfg)) old).2.2.1.sampleRateHz =
      cfg.sampleRateHz ∧
    lastOutputSampleRateHz (getAudio (loadDecoders (initState cfg)) old).1 =
      cfg.sampleRateHz := by
  have hne : ¬ (List.length ([] : List Nat) ≥ cfg.sampleRateHz / 100) := by
    simp only [List.length_nil]
    omega
  refine ⟨?_, ?_, ?_, ?_, ?_⟩ <;>
    · simp only [loadDecoders, registerPayloadType, initState, getAudio, refill,
        frameSamples, lastOutputSampleRateHz]
      simp only [List.filter, List.length_nil, ge_iff_le, Nat.le_zero]
      rw [if_neg (by omega)]
      simp

/-- Closed witness for C1 at the default 8 kHz configuration. -/
theorem claim_C1_witness :
    0 < defaultConfig.sampleRateHz / 100 ∧
    ((getAudio (loadDecoders (initState defaultConfig))
        (List.replicate 200 1)).2.1 = 0 ∧
      (getAudio (loadDecoders (initState defaultConfig))
          (List.replicate 200 1)).2.2.1.samplesPerChannel =
        defaultConfig.sampleRateHz / 100 ∧
      ((getAudio (loadDecoders (initState defaultConfig))
          (List.replicate 200 1)).2.2.1.data.take
            (defaultConfig.sampleRateHz / 100)).all (fun x => x == 0) = true ∧
      (getAudio (loadDecoders (initState defaultConfig))
          (List.replicate 200 1)).2.2.1.sampleRateHz =
        defaultConfig.sampleRateHz ∧
      lastOutputSampleRateHz (getAudio (loadDecoders (initState defaultConfig))
          (List.replicate 200 1)).1 = defaultConfig.sampleRateHz) :=
  ⟨by decide, claim_C1 defaultConfig (List.replicate 200 1) (by decide)⟩

/-- The fax-mode waiting-time scenario: header of the i-th 10 ms 16 kHz
frame. -/
def faxHeader (i : Nat) : RtpHeader := ⟨i, i * 160, 4660, 94⟩

/-- All 30 frames inserted back-to-back with no pacing. -/
def faxInserted : State :=
  (List.range 30).foldl
    (fun st i => (insertPacket st (faxHeader i) (List.replicate 160 0) 0).1)
    setupState

/-- The engine after pulling out all 30 frames. -/
def faxFinal : State := pullN faxInserted 30

/-- First statistics read of the scenario. -/
def faxSnap : NetworkStatistics × State := networkStatistics faxFinal

/-- Second, immediately subsequent statistics read. -/
def faxSnap2 : NetworkStatistics × State := networkStatistics faxSnap.2

/-- C3: after inserting 30 back-to-back 10 ms 16 kHz frames and pulling
30 times, the waiting-time statistics report mean 155 ms, median 155 ms,
min 10 ms, max 300 ms, and a subsequent read returns the reset sentinel
values because reading the snapshot clears the waiting-time histogram. -/
theorem claim_C3 :
    faxSnap.1.meanWaitingTimeMs = 155 ∧
    faxSnap.1.medianWaitingTimeMs = 155 ∧
    faxSnap.1.minWaitingTimeMs = 10 ∧
    faxSnap.1.maxWaitingTimeMs = 300 ∧
    faxSnap2.1.meanWaitingTimeMs = -1 ∧
    faxSnap2.1.medianWaitingTimeMs = -1 ∧
    faxSnap2.1.minWaitingTimeMs = -1 ∧
    faxSnap2.1.maxWaitingTimeMs = -1 := by
  set_option maxRecDepth 100000 in decide

/-- C5: a placeholder (sync) insertion fails when it would be the first
packet ever inserted, fails when the payload type is registered as
comfort-noise, out-of-band event or redundancy, fails when the stream
identifier differs from the established one, and succeeds for a
registered speech payload type matching the active stream after at least
one real packet has been inserted. -/
theorem claim_C5 (st : State) (hdr : RtpHeader) (rts : Nat) :
    (st.firstPacketReceived = false → (insertSyncPacket st hdr rts).2 = -1) ∧
    (∀ c : CodecId, lookupPayload st.registry hdr.payloadType = some c →
      (codecClass c = CodecClass.cng ∨ codecClass c = CodecClass.avt ∨
        codecClass c = CodecClass.red) →
      (insertSyncPacket st hdr rts).2 = -1) ∧
    (hdr.ssrc ≠ st.streamSsrc → (insertSyncPacket st hdr rts).2 = -1) ∧
    (∀ c : CodecId, st.firstPacketReceived = true →
      lookupPayload st.registry hdr.payloadType = some c →
      codecClass c = CodecClass.speech →
      st.lastInsertedPayloadType = some hdr.payloadType →
      hdr.ssrc = st.streamSsrc →
      (insertSyncPacket st hdr rts).2 = 0) := by
  refine ⟨?_, ?_, ?_, ?_⟩
  · intro h
    simp [insertSyncPacket, h]
  · intro c hl hcls
    by_cases hf : st.firstPacketReceived
    · rcases hcls with h | h | h <;> simp [insertSyncPacket, hf, hl, h]
    · simp [insertSyncPacket, hf]
  · intro hs
    by_cases hf : st.firstPacketReceived
    · cases hl : lookupPayload st.registry hdr.payloadType with
      | none => simp [insertSyncPacket, hf, hl]
      | some c =>
          by_cases hcls : codecClass c = CodecClass.cng ∨
            codecClass c = CodecClass.avt ∨ codecClass c = CodecClass.red
          · simp [insertSyncPacket, hf, hl, hcls]
          · by_cases hpt : st.lastInsertedPayloadType = some hdr.payloadType
            · simp [insertSyncPacket, hf, hl, hcls, hpt, hs]
            · simp [insertSyncPacket, hf, hl, hcls, hpt]
    · simp [insertSyncPacket, hf]
  · intro c hf hl hcls hpt hss
    simp [insertSyncPacket, hf, hl, hcls, hpt, hss]

/-- The sync-insertion scenario: the extra registrations performed by the
SyncPacketInsert test. -/
def syncScnRegistered : State :=
  let st := registerPayloadType setupState .pcm16b16 1
  let st := registerPayloadType st .cngNb 2
  let st := registerPayloadType st .cngWb 3
  let st := registerPayloadType st .cngSwb32 4
  let st := registerPayloadType st .cngSwb48 5
  let st := registerPayloadType st .avt 6
  let st := registerPayloadType st .red 7
  let st := registerPayloadType st .isac 9
  st

/-- The sync-insertion scenario after one real 10 ms speech packet. -/
def syncScnState : State :=
  (insertPacket syncScnRegistered ⟨0, 0, 4660, 1⟩ (List.replicate 160 0) 0).1

/-- Header used for the sync-insertion attempts. -/
def syncScnHeader (pt ssrc : Nat) : RtpHeader := ⟨1, 160, ssrc, pt⟩

/-- Closed witness for C5 on the SyncPacketInsert scenario state. -/
theorem claim_C5_witness :
    (insertSyncPacket syncScnRegistered ⟨0, 0, 4660, 1⟩ 0).2 = -1 ∧
    (insertSyncPacket syncScnState (syncScnHeader 2 4660) 160).2 = -1 ∧
    (insertSyncPacket syncScnState (syncScnHeader 6 4660) 160).2 = -1 ∧
    (insertSyncPacket syncScnState (syncScnHeader 7 4660) 160).2 = -1 ∧
    (insertSyncPacket syncScnState (syncScnHeader 1 4661) 160).2 = -1 ∧
    (insertSyncPacket syncScnState (syncScnHeader 1 4660) 160).2 = 0 :=
  ⟨(claim_C5 syncScnRegistered ⟨0, 0, 4660, 1⟩ 0).1 (by decide),
   (claim_C5 syncScnState (syncScnHeader 2 4660) 160).2.1 .cngNb (by decide)
     (Or.inl (by decide)),
   (claim_C5 syncScnState (syncScnHeader 6 4660) 160).2.1 .avt (by decide)
     (Or.inr (Or.inl (by decide))),
   (claim_C5 syncScnState (syncScnHeader 7 4660) 160).2.1 .red (by decide)
     (Or.inr (Or.inr (by decide))),
   (claim_C5 syncScnState (syncScnHeader 1 4661) 160).2.2.1 (by decide),
   (claim_C5 syncScnState (syncScnHeader 1 4660) 160).2.2.2 .pcm16b16
     (by decide) (by decide) (by decide) (by decide) (by decide)⟩

/-- C10: a placeholder (sync) packet cannot initiate a codec change: the
insertion fails whenever the header's payload type differs from the
stream's currently active speech payload type, even if that payload type
is itself registered as a valid speech decoder. -/
theorem claim_C10 (st : State) (hdr : RtpHeader) (rts : Nat) (c : CodecId)
    (hl : lookupPayload st.registry hdr.payloadType = some c)
    (hcls : codecClass c = CodecClass.speech)
    (hpt : st.lastInsertedPayloadType ≠ some hdr.payloadType) :
    (insertSyncPacket st hdr rts).2 = -1 := by
  by_cases hf : st.firstPacketReceived
  · simp [insertSyncPacket, hf, hl, hcls, hpt]
  · simp [insertSyncPacket, hf]

/-- Closed witness for C10: a sync packet carrying the registered iSAC
speech payload type is rejected while PCM16 wideband is active. -/
theorem claim_C10_witness :
    (insertSyncPacket syncScnState (syncScnHeader 9 4660) 160).2 = -1 :=
  claim_C10 syncScnState (syncScnHeader 9 4660) 160 .isac (by decide)
    (by decide) (by decide)

/-- The decoder-error scenario: an otherwise valid packet whose payload
the modelled iSAC decoder rejects. -/
def decErrInsert : State × Int :=
  insertPacket setupState ⟨0, 0, 4660, 103⟩ (List.replicate 100 0) 0

/-- The failing pull of the decoder-error scenario, with the caller's
frame buffer pre-filled with ones. -/
def decErrPull : State × Int × Frame × OutputType :=
  getAudio decErrInsert.1 (List.replicate 480 1)

/-- C8: when the underlying decoder fails on an otherwise valid packet,
the pull reports failure but still returns a frame whose undecodable
10 ms block is zero-filled while the samples beyond it are preserved
unmodified, LastError reports the decoder-error classification with the
decoder's native error code exposed, and the engine remains callable. -/
theorem claim_C8 :
    decErrInsert.2 = 0 ∧
    decErrPull.2.1 = -1 ∧
    decErrPull.2.2.1.samplesPerChannel = 160 ∧
    (decErrPull.2.2.1.data.take 160).all (fun x => x == 0) = true ∧
    (decErrPull.2.2.1.data.drop 160).all (fun x => x == 1) = true ∧
    decErrPull.1.lastError = some NetEqError.decoderErrorCode ∧
    decErrPull.1.lastDecoderError = isacLengthMismatch ∧
    (getAudio decErrPull.1 []).2.1 = 0 := by
  set_option maxRecDepth 100000 in decide

/-- Header of the i-th 10 ms speech frame in the placeholder scenarios. -/
def plainSpeechHeader (i : Nat) : RtpHeader := ⟨i, i * 160, 4660, 94⟩

/-- Non-zero 10 ms speech payload used by the placeholder scenarios. -/
def noisePayload : List Nat := List.replicate 160 5

/-- Insert one real speech frame and pull once. -/
def speechStep (st : State) (i : Nat) : State :=
  (getAudio (insertPacket st (plainSpeechHeader i) noisePayload 0).1 []).1

/-- The placeholder-decode scenario after three real frames. -/
def syncDecBase : State := (List.range 3).foldl speechStep setupState

/-- Insert one placeholder packet and pull once, recording whether the
emitted 10 ms block was all-zero. -/
def syncDecStep (p : State × List Bool) (i : Nat) : State × List Bool :=
  let st := (insertSyncPacket p.1 (plainSpeechHeader i) 0).1
  let r := getAudio st []
  (r.1, p.2 ++ [(r.2.2.1.data.take 160).all (fun x => x == 0)])

/-- The placeholder-decode scenario after four placeholder frames. -/
def syncDecPhase : State × List Bool :=
  ([3, 4, 5, 6] : List Nat).foldl syncDecStep (syncDecBase, [])

/-- Resume real packets after the placeholders, recording whether each
emitted 10 ms block was all-non-zero. -/
def syncDecResumeStep (p : State × List Bool) (i : Nat) : State × List Bool :=
  let st := (insertPacket p.1 (plainSpeechHeader i) noisePayload 0).1
  let r := getAudio st []
  (r.1, p.2 ++ [(r.2.2.1.data.take 160).all (fun x => x != 0)])

/-- The placeholder-decode scenario after real packets resume. -/
def syncDecResumed : State × List Bool :=
  ([7, 8, 9] : List Nat).foldl syncDecResumeStep (syncDecPhase.1, [])

/-- The supersede scenario: two real frames consumed, then three
placeholders buffered without pulling. -/
def supersedeBase : State :=
  ([2, 3, 4] : List Nat).foldl
    (fun st i => (insertSyncPacket st (plainSpeechHeader i) 0).1)
    ((List.range 2).foldl speechStep setupState)

/-- The supersede scenario after real packets with the same sequence
numbers and timestamps arrive. -/
def supersedeReal : State :=
  ([2, 3, 4] : List Nat).foldl
    (fun st i => (insertPacket st (plainSpeechHeader i) noisePayload 0).1)
    supersedeBase

/-- Pull out the three superseding frames, recording whether each was
all-non-zero. -/
def supersedePulled : State × List Bool :=
  ([0, 1, 2] : List Nat).foldl
    (fun p _ =>
      let r := getAudio p.1 []
      (r.1, p.2 ++ [(r.2.2.1.data.take 160).all (fun x => x != 0)]))
    (supersedeReal, [])

/-- C4: a placeholder (sync) packet never produces non-zero audio energy:
every frame pulled while consuming placeholders is all-zero; and when
real packets with the same sequence numbers and timestamps arrive later,
the placeholders are superseded (the buffer holds only real packets and
keeps its occupancy), pulling yields the real packets' non-zero decoded
energy, and no packet loss or concealment is recorded in the
statistics. -/
theorem claim_C4 :
    syncDecPhase.2 = [true, true, true, true] ∧
    syncDecResumed.2 = [true, true, true] ∧
    (networkStatistics syncDecResumed.1).1.packetLossRate = 0 ∧
    (networkStatistics syncDecResumed.1).1.expandRate = 0 ∧
    (networkStatistics supersedeBase).1.currentBufferSizeMs = 30 ∧
    supersedeReal.buffer.length = 3 ∧
    supersedeReal.buffer.all (fun p => !p.isSync) = true ∧
    (networkStatistics supersedeReal).1.currentBufferSizeMs = 30 ∧
    supersedePulled.2 = [true, true, true] ∧
    (networkStatistics supersedePulled.1).1.packetLossRate = 0 := by
  set_option maxRecDepth 100000 in decide

/-- The duplicate comfort-noise scenario: three real speech frames
consumed. -/
def dupCngBase : State :=
  (List.range 3).foldl
    (fun st i =>
      (getAudio (insertPacket st (plainSpeechHeader i)
        (List.replicate 160 3) 0).1 []).1)
    setupState

/-- The comfort-noise header of the duplicate scenario. -/
def dupCngHeader : RtpHeader := ⟨3, 480, 4660, 98⟩

/-- First insertion of the comfort-noise packet. -/
def dupCngFirstInsert : State × Int := insertPacket dupCngBase dupCngHeader [64] 0

/-- First comfort-noise pull. -/
def dupCngFirstPull : State × Int × Frame × OutputType :=
  getAudio dupCngFirstInsert.1 []

/-- Second insertion of the identical comfort-noise packet (now old). -/
def dupCngSecondInsert : State × Int :=
  insertPacket dupCngFirstPull.1 dupCngHeader [64] 0

/-- The remaining nine comfort-noise pulls of the 100 ms period,
recording the classification and reported playout timestamp of each. -/
def dupCngPeriod : State × List (OutputType × Option Nat) :=
  (List.range 9).foldl
    (fun p _ =>
      let r := getAudio p.1 []
      (r.1, p.2 ++ [(r.2.2.2, getPlayoutTimestamp r.1)]))
    (dupCngSecondInsert.1, [])

/-- Speech resumes after the comfort-noise period. -/
def dupCngResume : State × Int × Frame × OutputType :=
  getAudio (insertPacket dupCngPeriod.1 ⟨4, 2080, 4660, 94⟩
    (List.replicate 160 3) 0).1 []

/-- C6: inserting the same comfort-noise packet a second time succeeds,
is deduplicated leaving the engine state unchanged (hence statistics and
playout-timestamp progression identical to inserting it once), the
reported playout timestamp stays at the comfort-noise packet's timestamp
minus the algorithmic delay throughout the period, and speech resumes
normally afterwards. -/
theorem claim_C6 :
    (∀ (st : State) (hdr : RtpHeader) (payload : List Nat) (rts : Nat)
        (c : CodecId),
      lookupPayload st.registry hdr.payloadType = some c →
      codecClass c = CodecClass.cng →
      st.lastCngHeader = some hdr →
      st.lastCngPayload = payload →
      insertPacket st hdr payload rts = (st, 0)) ∧
    dupCngFirstInsert.2 = 0 ∧
    dupCngFirstPull.2.2.2 = OutputType.cng ∧
    getPlayoutTimestamp dupCngFirstPull.1 =
      some (dupCngHeader.timestamp - delaySamples dupCngFirstPull.1) ∧
    dupCngSecondInsert.2 = 0 ∧
    dupCngSecondInsert.1 = dupCngFirstPull.1 ∧
    dupCngPeriod.2 = List.replicate 9
      (OutputType.cng,
       some (dupCngHeader.timestamp - delaySamples dupCngFirstPull.1)) ∧
    dupCngResume.2.2.2 = OutputType.normal ∧
    getPlayoutTimestamp dupCngResume.1 =
      some (2080 + 160 - delaySamples dupCngResume.1) := by
  refine ⟨?_, ?_⟩
  · intro st hdr payload rts c hl hcls hch hcp
    simp [insertPacket, hl, hcls, hch, hcp]
  · set_option maxRecDepth 100000 in decide

/-- Closed witness for C6: the deduplicating insertion of the scenario,
via the general part of the claim. -/
theorem claim_C6_witness :
    insertPacket dupCngFirstPull.1 dupCngHeader [64] 0 =
      (dupCngFirstPull.1, 0) :=
  claim_C6.1 dupCngFirstPull.1 dupCngHeader [64] 0 .cngWb
    (by set_option maxRecDepth 100000 in decide)
    (by decide)
    (by set_option maxRecDepth 100000 in decide)
    (by set_option maxRecDepth 100000 in decide)

/-- Modelled from the spec: one externally observable operation of a
valid insertion-and-pull sequence. -/
inductive Op where
  | insert (hdr : RtpHeader) (payload : List Nat) (rts : Nat)
  | insertSync (hdr : RtpHeader) (rts : Nat)
  | pull
deriving Repr

/-- Modelled from the spec: apply one operation to the engine state. -/
def applyOp (st : State) (op : Op) : State :=
  match op with
  | .insert hdr payload rts => (insertPacket st hdr payload rts).1
  | .insertSync hdr rts => (insertSyncPacket st hdr rts).1
  | .pull => (getAudio st []).1

/-- Modelled from the spec: run a sequence of operations. -/
def runOps (st : State) : List Op → State
  | [] => st
  | op :: ops => runOps (applyOp st op) ops

/-- The output sample rate equals the native rate of the most recently
decoded/active payload type, or the configured initial rate before any
payload was decoded. -/
def ActiveConsistent (st : State) : Prop :=
  match st.activePayloadType with
  | none => st.sampleRateHz = st.cfg.sampleRateHz
  | some pt =>
      match lookupPayload st.registry pt with
      | none => False
      | some c =>
          codecClass c = CodecClass.speech ∧ codecRateHz c = st.sampleRateHz

/-- Boolean mirror of the consistency invariant, for evaluation. -/
def activeConsistentB (st : State) : Bool :=
  match st.activePayloadType with
  | none => st.sampleRateHz == st.cfg.sampleRateHz
  | some pt =>
      match lookupPayload st.registry pt with
      | none => false
      | some c =>
          decide (codecClass c = CodecClass.speech) &&
            (codecRateHz c == st.sampleRateHz)

theorem activeConsistentB_iff (st : State) :
    activeConsistentB st = true ↔ ActiveConsistent st := by
  unfold activeConsistentB ActiveConsistent
  cases st.activePayloadType with
  | none => simp
  | some pt =>
      cases h2 : lookupPayload st.registry pt with
      | none => simp [h2]
      | some c => simp [h2]

instance (st : State) : Decidable (ActiveConsistent st) :=
  decidable_of_iff (activeConsistentB st = true) (activeConsistentB_iff st)

/-- The four state fields the consistency invariant depends on. -/
def coreEq (a b : State) : Prop :=
  a.registry = b.registry ∧ a.activePayloadType = b.activePayloadType ∧
    a.sampleRateHz = b.sampleRateHz ∧ a.cfg = b.cfg

theorem ac_of_coreEq {a b : State} (h : coreEq a b)
    (hb : ActiveConsistent b) : ActiveConsistent a := by
  obtain ⟨h1, h2, h3, h4⟩ := h
  unfold ActiveConsistent at hb ⊢
  rw [h1, h2, h3, h4]
  exact hb

theorem insertPacket_core (st : State) (hdr : RtpHeader) (payload : List Nat)
    (rts : Nat) : coreEq (insertPacket st hdr payload rts).1 st := by
  unfold insertPacket
  split
  · exact ⟨rfl, rfl, rfl, rfl⟩
  · split
    · exact ⟨rfl, rfl, rfl, rfl⟩
    · split
      · exact ⟨rfl, rfl, rfl, rfl⟩
      · exact ⟨rfl, rfl, rfl, rfl⟩

theorem insertSyncPacket_core (st : State) (hdr : RtpHeader) (rts : Nat) :
    coreEq (insertSyncPacket st hdr rts).1 st := by
  unfold insertSyncPacket
  split
  · exact ⟨rfl, rfl, rfl, rfl⟩
  · split
    · exact ⟨rfl, rfl, rfl, rfl⟩
    · split
      · exact ⟨rfl, rfl, rfl, rfl⟩
      · split
        · exact ⟨rfl, rfl, rfl, rfl⟩
        · split
          · exact ⟨rfl, rfl, rfl, rfl⟩
          · exact ⟨rfl, rfl, rfl, rfl⟩

theorem refill_ac : ∀ (fuel : Nat) (st : State), ActiveConsistent st →
    ActiveConsistent (refill st fuel).1 := by
  intro fuel
  induction fuel with
  | zero => intro st h; exact h
  | succ k ih =>
      intro st h
      unfold refill
      split
      · exact h
      · split
        · exact h
        · next p rest heqbuf =>
            split
            · exact ih _ (ac_of_coreEq ⟨rfl, rfl, rfl, rfl⟩ h)
            · next c hl =>
                split
                · exact ac_of_coreEq ⟨rfl, rfl, rfl, rfl⟩ h
                · exact ih _ (ac_of_coreEq ⟨rfl, rfl, rfl, rfl⟩ h)
                · exact ih _ (ac_of_coreEq ⟨rfl, rfl, rfl, rfl⟩ h)
                · next hspeech =>
                    split
                    · exact ih _ (ac_of_coreEq ⟨rfl, rfl, rfl, rfl⟩ h)
                    · split
                      · unfold ActiveConsistent
                        simp only []
                        rw [hl]
                        exact ⟨hspeech, rfl⟩
                      · refine ih _ ?_
                        unfold ActiveConsistent
                        simp only [recordDecodeStats]
                        rw [hl]
                        exact ⟨hspeech, rfl⟩

theorem refill_filled_pending : ∀ (fuel : Nat) (st : State),
    (refill st fuel).2 = RefillOutcome.filled →
    frameSamples (refill st fuel).1 ≤ (refill st fuel).1.pending.length := by
  intro fuel
  induction fuel with
  | zero => intro st h; simp [refill] at h
  | succ k ih =>
      intro st h
      by_cases hc : st.pending.length ≥ frameSamples st
      · simp only [refill, if_pos hc]
        exact hc
      · cases hb : st.buffer with
        | nil => simp [refill, if_neg hc, hb] at h
        | cons p rest =>
            cases hl : lookupPayload st.registry p.header.payloadType with
            | none =>
                simp only [refill, if_neg hc, hb, hl] at h ⊢
                exact ih _ h
            | some c =>
                cases hcc : codecClass c with
                | cng => simp [refill, if_neg hc, hb, hl, hcc] at h
                | avt =>
                    simp only [refill, if_neg hc, hb, hl, hcc] at h ⊢
                    exact ih _ h
                | red =>
                    simp only [refill, if_neg hc, hb, hl, hcc] at h ⊢
                    exact ih _ h
                | speech =>
                    by_cases hs : p.isSync = true
                    · simp only [refill, if_neg hc, hb, hl, hcc, hs,
                        if_true] at h ⊢
                      exact ih _ h
                    · cases hd : decodeSpeechPayload c p.payload with
                      | error e =>
                          simp [refill, if_neg hc, hb, hl, hcc,
                            eq_false_of_ne_true hs, hd] at h
                      | ok samples =>
                          simp only [refill, if_neg hc, hb, hl, hcc,
                            eq_false_of_ne_true hs, if_false, hd] at h ⊢
                          exact ih _ h

theorem getAudio_ac (st : State) (old : List Nat) (h : ActiveConsistent st) :
    ActiveConsistent (getAudio st old).1 := by
  have h1 := refill_ac (st.buffer.length + 1) st h
  simp only [getAudio]
  split
  · exact ac_of_coreEq ⟨rfl, rfl, rfl, rfl⟩ h1
  · exact ac_of_coreEq ⟨rfl, rfl, rfl, rfl⟩ h1
  · exact ac_of_coreEq ⟨rfl, rfl, rfl, rfl⟩ h1
  · split
    · exact ac_of_coreEq ⟨rfl, rfl, rfl, rfl⟩ h1
    · exact ac_of_coreEq ⟨rfl, rfl, rfl, rfl⟩ h1

theorem applyOp_ac (st : State) (op : Op) (h : ActiveConsistent st) :
    ActiveConsistent (applyOp st op) := by
  cases op with
  | insert hdr payload rts =>
      exact ac_of_coreEq (insertPacket_core st hdr payload rts) h
  | insertSync hdr rts =>
      exact ac_of_coreEq (insertSyncPacket_core st hdr rts) h
  | pull => exact getAudio_ac st [] h

theorem runOps_ac (ops : List Op) : ∀ (st : State), ActiveConsistent st →
    ActiveConsistent (runOps st ops) := by
  induction ops with
  | nil => intro st h; exact h
  | cons op ops ih => intro st h; exact ih _ (applyOp_ac st op h)

theorem getAudio_frame_shape (st : State) (old : List Nat) :
    (getAudio st old).2.2.1.sampleRateHz = (getAudio st old).1.sampleRateHz ∧
    (getAudio st old).2.2.1.samplesPerChannel =
      (getAudio st old).2.2.1.sampleRateHz / 100 ∧
    (getAudio st old).2.2.1.samplesPerChannel ≤
      (getAudio st old).2.2.1.data.length := by
  have hfill := refill_filled_pending (st.buffer.length + 1) st
  simp only [getAudio]
  split
  · refine ⟨rfl, rfl, ?_⟩
    simp [frameSamples]
  · next hoc =>
      refine ⟨rfl, rfl, ?_⟩
      have := hfill hoc
      simp only [List.length_append, List.length_take]
      omega
  · refine ⟨rfl, rfl, ?_⟩
    simp [frameSamples]
  · split
    · refine ⟨rfl, rfl, ?_⟩
      simp [frameSamples]
    · refine ⟨rfl, rfl, ?_⟩
      simp only [List.length_append, List.length_replicate]
      omega

/-- C2: along every valid sequence of packet insertions and pulls, every
pulled frame contains exactly 10 ms worth of samples per channel at a
sample rate equal to the native rate of the most recently decoded/active
payload type (or the configured initial rate before any decode), and the
engine's reported last output sample rate equals that rate after every
pull. -/
theorem claim_C2 (st0 : State) (ops : List Op) (h : ActiveConsistent st0)
    (old : List Nat) :
    ActiveConsistent (runOps st0 ops) ∧
    ActiveConsistent (getAudio (runOps st0 ops) old).1 ∧
    (getAudio (runOps st0 ops) old).2.2.1.sampleRateHz =
      lastOutputSampleRateHz (getAudio (runOps st0 ops) old).1 ∧
    (getAudio (runOps st0 ops) old).2.2.1.samplesPerChannel =
      (getAudio (runOps st0 ops) old).2.2.1.sampleRateHz / 100 ∧
    ((getAudio (runOps st0 ops) old).2.2.1.data.take
        (getAudio (runOps st0 ops) old).2.2.1.samplesPerChannel).length =
      (getAudio (runOps st0 ops) old).2.2.1.samplesPerChannel := by
  have hrun := runOps_ac ops st0 h
  have hshape := getAudio_frame_shape (runOps st0 ops) old
  refine ⟨hrun, getAudio_ac _ old hrun, hshape.1, hshape.2.1, ?_⟩
  simp only [List.length_take]
  omega

/-- Closed witness for C2 on a concrete insert-insert-pull sequence from
the setup state. -/
theorem claim_C2_witness :
    ActiveConsistent (runOps setupState
      [Op.insert (plainSpeechHeader 0) noisePayload 0, Op.pull,
       Op.insert (plainSpeechHeader 1) noisePayload 0]) ∧
    ActiveConsistent (getAudio (runOps setupState
      [Op.insert (plainSpeechHeader 0) noisePayload 0, Op.pull,
       Op.insert (plainSpeechHeader 1) noisePayload 0]) []).1 ∧
    (getAudio (runOps setupState
      [Op.insert (plainSpeechHeader 0) noisePayload 0, Op.pull,
       Op.insert (plainSpeechHeader 1) noisePayload 0]) []).2.2.1.sampleRateHz =
      lastOutputSampleRateHz (getAudio (runOps setupState
        [Op.insert (plainSpeechHeader 0) noisePayload 0, Op.pull,
         Op.insert (plainSpeechHeader 1) noisePayload 0]) []).1 ∧
    (getAudio (runOps setupState
      [Op.insert (plainSpeechHeader 0) noisePayload 0, Op.pull,
       Op.insert (plainSpeechHeader 1) noisePayload 0]) []).2.2.1.samplesPerChannel =
      (getAudio (runOps setupState
        [Op.insert (plainSpeechHeader 0) noisePayload 0, Op.pull,
         Op.insert (plainSpeechHeader 1) noisePayload 0]) []).2.2.1.sampleRateHz / 100 ∧
    ((getAudio (runOps setupState
      [Op.insert (plainSpeechHeader 0) noisePayload 0, Op.pull,
       Op.insert (plainSpeechHeader 1) noisePayload 0]) []).2.2.1.data.take
        (getAudio (runOps setupState
          [Op.insert (plainSpeechHeader 0) noisePayload 0, Op.pull,
           Op.insert (plainSpeechHeader 1) noisePayload 0]) []).2.2.1.samplesPerChannel).length =
      (getAudio (runOps setupState
        [Op.insert (plainSpeechHeader 0) noisePayload 0, Op.pull,
         Op.insert (plainSpeechHeader 1) noisePayload 0]) []).2.2.1.samplesPerChannel :=
  claim_C2 setupState
    [Op.insert (plainSpeechHeader 0) noisePayload 0, Op.pull,
     Op.insert (plainSpeechHeader 1) noisePayload 0]
    (by set_option maxRecDepth 10000 in decide) []


/-- The concrete registry contents after test setup. -/
def regList : List (Nat × CodecId) :=
  [(98, .cngWb), (13, .cngNb), (95, .pcm16b32), (94, .pcm16b16),
   (93, .pcm16b8), (103, .isac), (8, .pcma), (0, .pcmu)]

theorem setupState_eq :
    setupState =
      { cfg := ⟨8000, 0⟩
        registry := regList
        buffer := []
        firstPacketReceived := false
        streamSsrc := 0
        lastInsertedPayloadType := none
        activePayloadType := none
        sampleRateHz := 8000
        pending := []
        playoutTs := 0
        mode := .normal
        lastCngHeader := none
        lastCngPayload := []
        lastFrameSamples := 80
        lastDecodedSeq := none
        preferredBufferSizeMs := 0
        ticks := 0
        stats := ⟨[], 0, 0, 0⟩
        lastError := none
        lastDecoderError := 0 } := by
  decide

/-- Wrap scenario: header of the j-th 30 ms frame starting at sequence
number s0 and timestamp t0. -/
def wrapHeader (s0 t0 j : Nat) : RtpHeader :=
  ⟨(s0 + j) % seqMod, (t0 + 240 * j) % tsMod, 4660, 93⟩

/-- Wrap scenario: 30 ms of 16 kHz audio. -/
def wrapPayload : List Nat := List.replicate 240 0

/-- Wrap scenario: one 10 ms tick: insert the due frame (every third
tick) and pull once. -/
def wrapTick (s0 t0 : Nat) (st : State) (t : Nat) : State :=
  let st1 :=
    if t % 3 = 0 then (insertPacket st (wrapHeader s0 t0 (t / 3)) wrapPayload 0).1
    else st
  (getAudio st1 []).1

/-- Wrap scenario: the engine after n ticks. -/
def wrapRun (s0 t0 : Nat) : Nat → State
  | 0 => setupState
  | t + 1 => wrapTick s0 t0 (wrapRun s0 t0 t) t

/-- Closed form of the wrap scenario state after 3j + r ticks,
r in 1..3. -/
def wrapClosed (s0 t0 j r : Nat) : State :=
  { cfg := ⟨8000, 0⟩
    registry := regList
    buffer := []
    firstPacketReceived := true
    streamSsrc := 4660
    lastInsertedPayloadType := some 93
    activePayloadType := some 93
    sampleRateHz := 8000
    pending := List.replicate (240 - 80 * r) 0
    playoutTs := (t0 + 240 * j + 80 * r) % tsMod
    mode := .normal
    lastCngHeader := none
    lastCngPayload := []
    lastFrameSamples := 240
    lastDecodedSeq := some ((s0 + j) % seqMod)
    preferredBufferSizeMs := 30
    ticks := 3 * j + r
    stats := ⟨List.replicate (j + 1) 10, 0, 0, 0⟩
    lastError := none
    lastDecoderError := 0 }

theorem tsNewer_self (a : Nat) : ¬ tsNewer a a := by
  unfold tsNewer tsDiff tsMod
  omega

theorem lookup_regList_93 : lookupPayload regList 93 = some CodecId.pcm16b8 := by
  decide

set_option maxRecDepth 2000 in
theorem refill_filledB (st : State) (k : Nat)
    (h : st.pending.length ≥ frameSamples st) :
    refill st (k + 1) = (st, RefillOutcome.filled) := by
  unfold refill
  rw [if_pos h]

set_option maxRecDepth 4000 in
theorem refill_starved_emptyT (st : State) (k : Nat)
    (hb : st.buffer = [])
    (h : ¬ st.pending.length ≥ frameSamples st) :
    refill st (k + 1) = (st, RefillOutcome.starved) := by
  unfold refill
  rw [if_neg h, hb]

set_option maxRecDepth 4000 in
theorem refill_decodeT (st : State) (k : Nat) (p : Packet) (rest : List Packet)
    (codec : CodecId) (samples : List Nat)
    (h : ¬ st.pending.length ≥ frameSamples st)
    (hb : st.buffer = p :: rest)
    (hl : lookupPayload st.registry p.header.payloadType = some codec)
    (hc : codecClass codec = CodecClass.speech)
    (hs : p.isSync = false)
    (hd : decodeSpeechPayload codec p.payload = Except.ok samples) :
    refill st (k + 1) =
      refill { recordDecodeStats st p with
          buffer := rest
          playoutTs :=
            if (recordDecodeStats st p).pending.isEmpty
            then p.header.timestamp % tsMod
            else (recordDecodeStats st p).playoutTs
          pending := (recordDecodeStats st p).pending ++ samples
          sampleRateHz := codecRateHz codec
          activePayloadType := some p.header.payloadType
          lastFrameSamples := samples.length } k := by
  simp only [refill, if_neg h, hb, hl, hc, hs, Bool.false_eq_true, if_false, hd]

set_option maxRecDepth 4000 in
theorem refill_cngT (st : State) (k : Nat) (p : Packet) (rest : List Packet)
    (codec : CodecId)
    (h : ¬ st.pending.length ≥ frameSamples st)
    (hb : st.buffer = p :: rest)
    (hl : lookupPayload st.registry p.header.payloadType = some codec)
    (hc : codecClass codec = CodecClass.cng) :
    refill st (k + 1) =
      ({ st with
          buffer := rest
          pending := []
          playoutTs := p.header.timestamp % tsMod
          lastCngHeader := some p.header
          lastCngPayload := p.payload
          lastDecodedSeq := some (p.header.sequenceNumber % seqMod)
          mode := .cng }, RefillOutcome.cngFrame) := by
  simp only [refill, if_neg h, hb, hl, hc]

set_option maxRecDepth 4000 in
theorem getAudio_filledT (st st2 : State) (old : List Nat)
    (h1 : (refill st (st.buffer.length + 1)).1 = st2)
    (h2 : (refill st (st.buffer.length + 1)).2 = RefillOutcome.filled) :
    getAudio st old =
      ({ st2 with
          pending := st2.pending.drop (frameSamples st2)
          playoutTs := (st2.playoutTs + frameSamples st2) % tsMod
          mode := .normal
          ticks := st2.ticks + 1 },
       0, ⟨st2.pending.take (frameSamples st2) ++ old.drop (frameSamples st2),
           frameSamples st2, st2.sampleRateHz⟩, OutputType.normal) := by
  simp only [getAudio, h1, h2]

set_option maxRecDepth 4000 in
theorem getAudio_cngFrameT (st st2 : State) (old : List Nat)
    (h1 : (refill st (st.buffer.length + 1)).1 = st2)
    (h2 : (refill st (st.buffer.length + 1)).2 = RefillOutcome.cngFrame) :
    getAudio st old =
      ({ st2 with ticks := st2.ticks + 1 },
       0, ⟨List.replicate (frameSamples st2) 0 ++ old.drop (frameSamples st2),
           frameSamples st2, st2.sampleRateHz⟩, OutputType.cng) := by
  simp only [getAudio, h1, h2]

set_option maxRecDepth 4000 in
theorem getAudio_starved_cngT (st st2 : State) (old : List Nat)
    (h1 : (refill st (st.buffer.length + 1)).1 = st2)
    (h2 : (refill st (st.buffer.length + 1)).2 = RefillOutcome.starved)
    (hm : st2.mode = OutputType.cng) :
    getAudio st old =
      ({ st2 with ticks := st2.ticks + 1, pending := [] },
       0, ⟨List.replicate (frameSamples st2) 0 ++ old.drop (frameSamples st2),
           frameSamples st2, st2.sampleRateHz⟩, OutputType.cng) := by
  simp only [getAudio, h1, h2]
  rw [if_pos hm]


theorem wrapPayload_length : wrapPayload.length = 240 := by
  rw [wrapPayload, List.length_replicate]

/-- State right after inserting frame 0 into the fresh engine. -/
def wrapIns0 (s0 t0 : Nat) : State :=
  { cfg := ⟨8000, 0⟩
    registry := regList
    buffer := [⟨⟨s0 % seqMod, t0 % tsMod, 4660, 93⟩, wrapPayload, false, 0⟩]
    firstPacketReceived := true
    streamSsrc := 4660
    lastInsertedPayloadType := some 93
    activePayloadType := none
    sampleRateHz := 8000
    pending := []
    playoutTs := t0 % tsMod % tsMod
    mode := .normal
    lastCngHeader := none
    lastCngPayload := []
    lastFrameSamples := 80
    lastDecodedSeq := none
    preferredBufferSizeMs := 30
    ticks := 0
    stats := ⟨[], 0, 0, 0⟩
    lastError := none
    lastDecoderError := 0 }

set_option maxRecDepth 4000 in
theorem wrapIns0_eq (s0 t0 : Nat) :
    (insertPacket setupState (wrapHeader s0 t0 0) wrapPayload 0).1 =
      wrapIns0 s0 t0 := by
  simp +decide only [insertPacket, setupState_eq, wrapHeader, lookup_regList_93,
    removeSupersededSync, List.filter_nil, insertByTs, wrapPayload_length,
    codecRateHz, Nat.reduceMul, Nat.reduceDiv, Nat.add_zero, false_and,
    if_false, if_true, true_and, Bool.false_eq_true, wrapIns0]

/-- State after decoding frame 0 during the first pull. -/
def wrapMid0 (s0 t0 : Nat) : State :=
  { cfg := ⟨8000, 0⟩
    registry := regList
    buffer := []
    firstPacketReceived := true
    streamSsrc := 4660
    lastInsertedPayloadType := some 93
    activePayloadType := some 93
    sampleRateHz := 8000
    pending := wrapPayload
    playoutTs := t0 % tsMod % tsMod
    mode := .normal
    lastCngHeader := none
    lastCngPayload := []
    lastFrameSamples := 240
    lastDecodedSeq := some (s0 % seqMod % seqMod)
    preferredBufferSizeMs := 30
    ticks := 0
    stats := ⟨[10], 0, 0, 0⟩
    lastError := none
    lastDecoderError := 0 }

set_option maxRecDepth 4000 in
theorem wrapRefill0 (s0 t0 : Nat) :
    refill (wrapIns0 s0 t0) ((wrapIns0 s0 t0).buffer.length + 1) =
      (wrapMid0 s0 t0, RefillOutcome.filled) := by
  rw [refill_decodeT (wrapIns0 s0 t0) ((wrapIns0 s0 t0).buffer.length)
      _ [] CodecId.pcm16b8 wrapPayload
      (by show ¬ ([] : List Nat).length ≥ 8000 / 100
          decide)
      rfl lookup_regList_93 rfl rfl rfl]
  simp +decide only [recordDecodeStats, wrapIns0, List.length_cons,
    List.length_nil, List.isEmpty_nil, List.nil_append, wrapPayload_length,
    if_true, Nat.reduceMul, Nat.reduceAdd, Nat.reduceSub, Nat.zero_add,
    wrapMid0]
  exact refill_filledB _ 0
    (by show wrapPayload.length ≥ 8000 / 100
        rw [wrapPayload_length]
        decide)

set_option maxRecDepth 4000 in
theorem wrapRun_one (s0 t0 : Nat) : wrapRun s0 t0 1 = wrapClosed s0 t0 0 1 := by
  have hga := getAudio_filledT (wrapIns0 s0 t0) (wrapMid0 s0 t0) []
      (by rw [wrapRefill0]) (by rw [wrapRefill0])
  have h0 : wrapRun s0 t0 1 =
      (getAudio ((insertPacket setupState (wrapHeader s0 t0 0)
        wrapPayload 0).1) []).1 := by
    rw [show (1:Nat) = 0 + 1 from rfl, wrapRun, wrapTick, wrapRun]
    norm_num
  rw [h0, wrapIns0_eq, hga]
  show ({ wrapMid0 s0 t0 with
      pending := (wrapMid0 s0 t0).pending.drop (frameSamples (wrapMid0 s0 t0))
      playoutTs := ((wrapMid0 s0 t0).playoutTs +
        frameSamples (wrapMid0 s0 t0)) % tsMod
      mode := .normal
      ticks := (wrapMid0 s0 t0).ticks + 1 } : State) = wrapClosed s0 t0 0 1
  norm_num [wrapMid0, wrapClosed, frameSamples, wrapPayload,
    List.drop_replicate, List.replicate_one]

set_option maxRecDepth 4000 in
theorem wrapStep1 (s0 t0 j : Nat) :
    wrapTick s0 t0 (wrapClosed s0 t0 j 1) (3 * j + 1) = wrapClosed s0 t0 j 2 := by
  have hmod : ¬ ((3 * j + 1) % 3 = 0) := by omega
  rw [wrapTick, if_neg hmod]
  have hr := refill_filledB (wrapClosed s0 t0 j 1)
      ((wrapClosed s0 t0 j 1).buffer.length)
      (show (List.replicate (240 - 80 * 1) 0).length ≥ 8000 / 100 from by
        simp [List.length_replicate])
  have hga := getAudio_filledT (wrapClosed s0 t0 j 1) (wrapClosed s0 t0 j 1) []
      (by rw [hr]) (by rw [hr])
  rw [hga]
  show ({ wrapClosed s0 t0 j 1 with
      pending := (wrapClosed s0 t0 j 1).pending.drop
        (frameSamples (wrapClosed s0 t0 j 1))
      playoutTs := ((wrapClosed s0 t0 j 1).playoutTs +
        frameSamples (wrapClosed s0 t0 j 1)) % tsMod
      mode := .normal
      ticks := (wrapClosed s0 t0 j 1).ticks + 1 } : State) = wrapClosed s0 t0 j 2
  norm_num [wrapClosed, frameSamples, List.drop_replicate]

set_option maxRecDepth 4000 in
theorem wrapStep2 (s0 t0 j : Nat) :
    wrapTick s0 t0 (wrapClosed s0 t0 j 2) (3 * j + 2) = wrapClosed s0 t0 j 3 := by
  have hmod : ¬ ((3 * j + 2) % 3 = 0) := by omega
  rw [wrapTick, if_neg hmod]
  have hr := refill_filledB (wrapClosed s0 t0 j 2)
      ((wrapClosed s0 t0 j 2).buffer.length)
      (show (List.replicate (240 - 80 * 2) 0).length ≥ 8000 / 100 from by
        simp [List.length_replicate])
  have hga := getAudio_filledT (wrapClosed s0 t0 j 2) (wrapClosed s0 t0 j 2) []
      (by rw [hr]) (by rw [hr])
  rw [hga]
  show ({ wrapClosed s0 t0 j 2 with
      pending := (wrapClosed s0 t0 j 2).pending.drop
        (frameSamples (wrapClosed s0 t0 j 2))
      playoutTs := ((wrapClosed s0 t0 j 2).playoutTs +
        frameSamples (wrapClosed s0 t0 j 2)) % tsMod
      mode := .normal
      ticks := (wrapClosed s0 t0 j 2).ticks + 1 } : State) = wrapClosed s0 t0 j 3
  norm_num [wrapClosed, frameSamples, List.drop_replicate]

/-- State of the wrap scenario right after frame j+1 is inserted at tick
3j + 3. -/
def wrapIns (s0 t0 j : Nat) : State :=
  { cfg := ⟨8000, 0⟩
    registry := regList
    buffer := [⟨wrapHeader s0 t0 (j + 1), wrapPayload, false, (3 * j + 3) * 10⟩]
    firstPacketReceived := true
    streamSsrc := 4660
    lastInsertedPayloadType := some 93
    activePayloadType := some 93
    sampleRateHz := 8000
    pending := []
    playoutTs := (t0 + 240 * j + 80 * 3) % tsMod
    mode := .normal
    lastCngHeader := none
    lastCngPayload := []
    lastFrameSamples := 240
    lastDecodedSeq := some ((s0 + j) % seqMod)
    preferredBufferSizeMs := 30
    ticks := 3 * j + 3
    stats := ⟨List.replicate (j + 1) 10, 0, 0, 0⟩
    lastError := none
    lastDecoderError := 0 }

set_option maxRecDepth 4000 in
theorem wrapIns_eq (s0 t0 j : Nat) :
    (insertPacket (wrapClosed s0 t0 j 3) (wrapHeader s0 t0 (j + 1))
      wrapPayload 0).1 = wrapIns s0 t0 j := by
  have h1 : ¬ (codecClass CodecId.pcm16b8 = CodecClass.cng ∧
      (wrapClosed s0 t0 j 3).lastCngHeader = some (wrapHeader s0 t0 (j + 1)) ∧
      (wrapClosed s0 t0 j 3).lastCngPayload = wrapPayload) := by
    simp [codecClass]
  have h2 : ¬ ((wrapClosed s0 t0 j 3).firstPacketReceived = true ∧
      tsNewer (wrapClosed s0 t0 j 3).playoutTs
        (wrapHeader s0 t0 (j + 1)).timestamp) := by
    intro hand
    have h := hand.2
    rw [show (wrapClosed s0 t0 j 3).playoutTs =
        (t0 + 240 * j + 80 * 3) % tsMod from rfl,
      show (wrapHeader s0 t0 (j + 1)).timestamp =
        (t0 + 240 * (j + 1)) % tsMod from rfl] at h
    unfold tsNewer tsDiff at h
    simp only [tsMod] at h
    omega
  have hreg : (wrapClosed s0 t0 j 3).registry = regList := rfl
  have hpt : (wrapHeader s0 t0 (j + 1)).payloadType = 93 := rfl
  simp only [insertPacket, hreg, hpt, lookup_regList_93, if_neg h1, if_neg h2]
  norm_num [wrapClosed, wrapIns, removeSupersededSync, insertByTs,
    wrapPayload_length, codecRateHz, codecClass]
  rfl

/-- State after decoding frame j+1 during the pull of tick 3j + 3. -/
def wrapMid3 (s0 t0 j : Nat) : State :=
  { cfg := ⟨8000, 0⟩
    registry := regList
    buffer := []
    firstPacketReceived := true
    streamSsrc := 4660
    lastInsertedPayloadType := some 93
    activePayloadType := some 93
    sampleRateHz := 8000
    pending := wrapPayload
    playoutTs := (t0 + 240 * (j + 1)) % tsMod % tsMod
    mode := .normal
    lastCngHeader := none
    lastCngPayload := []
    lastFrameSamples := 240
    lastDecodedSeq := some ((s0 + (j + 1)) % seqMod % seqMod)
    preferredBufferSizeMs := 30
    ticks := 3 * j + 3
    stats := ⟨List.replicate (j + 1) 10 ++
        [(3 * j + 3 + 1) * 10 - (3 * j + 3) * 10],
      0 + (((s0 + (j + 1)) % seqMod % seqMod + seqMod -
        (s0 + j) % seqMod % seqMod) % seqMod - 1), 0, 0⟩
    lastError := none
    lastDecoderError := 0 }

set_option maxRecDepth 4000 in
theorem wrapRefill3 (s0 t0 j : Nat) :
    refill (wrapIns s0 t0 j) ((wrapIns s0 t0 j).buffer.length + 1) =
      (wrapMid3 s0 t0 j, RefillOutcome.filled) := by
  rw [refill_decodeT (wrapIns s0 t0 j) ((wrapIns s0 t0 j).buffer.length)
      _ [] CodecId.pcm16b8 wrapPayload
      (by show ¬ ([] : List Nat).length ≥ 8000 / 100
          decide)
      rfl lookup_regList_93 rfl rfl rfl]
  simp +decide only [recordDecodeStats, wrapIns, wrapHeader, List.length_cons,
    List.length_nil, List.isEmpty_nil, List.nil_append, wrapPayload_length,
    if_true, codecRateHz, wrapMid3]
  exact refill_filledB _ 0
    (by show wrapPayload.length ≥ 8000 / 100
        rw [wrapPayload_length]
        decide)

set_option maxRecDepth 4000 in
theorem wrapStep3 (s0 t0 j : Nat) :
    wrapTick s0 t0 (wrapClosed s0 t0 j 3) (3 * j + 3) =
      wrapClosed s0 t0 (j + 1) 1 := by
  have hmod : (3 * j + 3) % 3 = 0 := by omega
  have hdiv : (3 * j + 3) / 3 = j + 1 := by omega
  rw [wrapTick, if_pos hmod, hdiv, wrapIns_eq]
  have hga := getAudio_filledT (wrapIns s0 t0 j) (wrapMid3 s0 t0 j) []
      (by rw [wrapRefill3]) (by rw [wrapRefill3])
  rw [hga]
  show ({ wrapMid3 s0 t0 j with
      pending := (wrapMid3 s0 t0 j).pending.drop
        (frameSamples (wrapMid3 s0 t0 j))
      playoutTs := ((wrapMid3 s0 t0 j).playoutTs +
        frameSamples (wrapMid3 s0 t0 j)) % tsMod
      mode := .normal
      ticks := (wrapMid3 s0 t0 j).ticks + 1 } : State) =
    wrapClosed s0 t0 (j + 1) 1
  norm_num [wrapMid3, wrapClosed, frameSamples, wrapPayload,
    List.drop_replicate, List.replicate_succ']
  refine ⟨by omega, by omega, ?_⟩
  simp only [seqMod]
  omega

theorem wrapRun_closed (s0 t0 : Nat) : ∀ j : Nat,
    wrapRun s0 t0 (3 * j + 1) = wrapClosed s0 t0 j 1 ∧
    wrapRun s0 t0 (3 * j + 2) = wrapClosed s0 t0 j 2 ∧
    wrapRun s0 t0 (3 * j + 3) = wrapClosed s0 t0 j 3 := by
  intro j
  induction j with
  | zero =>
      have ha : wrapRun s0 t0 (3 * 0 + 1) = wrapClosed s0 t0 0 1 := by
        rw [show 3 * 0 + 1 = 1 from by omega]
        exact wrapRun_one s0 t0
      have hb : wrapRun s0 t0 (3 * 0 + 2) = wrapClosed s0 t0 0 2 := by
        show wrapTick s0 t0 (wrapRun s0 t0 (3 * 0 + 1)) (3 * 0 + 1) =
          wrapClosed s0 t0 0 2
        rw [ha]
        exact wrapStep1 s0 t0 0
      have hc : wrapRun s0 t0 (3 * 0 + 3) = wrapClosed s0 t0 0 3 := by
        show wrapTick s0 t0 (wrapRun s0 t0 (3 * 0 + 2)) (3 * 0 + 2) =
          wrapClosed s0 t0 0 3
        rw [hb]
        exact wrapStep2 s0 t0 0
      exact ⟨ha, hb, hc⟩
  | succ j ih =>
      have ha : wrapRun s0 t0 (3 * (j + 1) + 1) = wrapClosed s0 t0 (j + 1) 1 := by
        show wrapTick s0 t0 (wrapRun s0 t0 (3 * (j + 1))) (3 * (j + 1)) =
          wrapClosed s0 t0 (j + 1) 1
        rw [show 3 * (j + 1) = 3 * j + 3 from by omega, ih.2.2]
        exact wrapStep3 s0 t0 j
      have hb : wrapRun s0 t0 (3 * (j + 1) + 2) = wrapClosed s0 t0 (j + 1) 2 := by
        show wrapTick s0 t0 (wrapRun s0 t0 (3 * (j + 1) + 1)) (3 * (j + 1) + 1) =
          wrapClosed s0 t0 (j + 1) 2
        rw [ha]
        exact wrapStep1 s0 t0 (j + 1)
      have hc : wrapRun s0 t0 (3 * (j + 1) + 3) = wrapClosed s0 t0 (j + 1) 3 := by
        show wrapTick s0 t0 (wrapRun s0 t0 (3 * (j + 1) + 2)) (3 * (j + 1) + 2) =
          wrapClosed s0 t0 (j + 1) 3
        rw [hb]
        exact wrapStep2 s0 t0 (j + 1)
      exact ⟨ha, hb, hc⟩


/-- Media timestamp of the next frame to be inserted after frame j. -/
def wrapNextTimestamp (t0 j : Nat) : Nat := (t0 + 240 * (j + 1)) % tsMod

/-- The reported playout timestamp, 0 when unavailable. -/
def reportedPlayout (st : State) : Nat := (getPlayoutTimestamp st).getD 0

set_option maxRecDepth 4000 in
/-- C7: across 16-bit sequence-number and 32-bit timestamp wraparound,
the steady 30 ms / three-tick feed keeps the end-to-end delay below two
packet durations (480 samples at 8 kHz), reports no spurious packet loss,
no expand (concealment) activity and no discarded packets, and keeps the
current and preferred buffer sizes bounded by two packet durations plus
the algorithmic delay. -/
theorem claim_C7 (s0 t0 j r : Nat) (hr : r = 1 ∨ r = 2 ∨ r = 3) :
    tsDiff (wrapNextTimestamp t0 j)
      (reportedPlayout (wrapRun s0 t0 (3 * j + r))) ≤ 2 * 240 ∧
    (networkStatistics (wrapRun s0 t0 (3 * j + r))).1.packetLossRate = 0 ∧
    (networkStatistics (wrapRun s0 t0 (3 * j + r))).1.expandRate = 0 ∧
    (networkStatistics (wrapRun s0 t0 (3 * j + r))).1.packetDiscardRate = 0 ∧
    (networkStatistics (wrapRun s0 t0 (3 * j + r))).1.currentBufferSizeMs ≤
      2 * 30 + defaultConfig.algorithmicDelayMs ∧
    (networkStatistics (wrapRun s0 t0 (3 * j + r))).1.preferredBufferSizeMs ≤
      2 * 30 := by
  rcases hr with h | h | h <;> subst h
  · rw [(wrapRun_closed s0 t0 j).1]
    have hp : reportedPlayout (wrapClosed s0 t0 j 1) =
        ((t0 + 240 * j + 80 * 1) % tsMod + tsMod - 0) % tsMod := by
      rw [reportedPlayout, getPlayoutTimestamp,
        if_neg (show ¬ ((wrapClosed s0 t0 j 1).ticks = 0) from by
          simp only [wrapClosed]
          omega),
        Option.getD_some]
      norm_num [wrapClosed, delaySamples]
    refine ⟨?_, rfl, rfl, rfl, ?_, ?_⟩
    · rw [hp]
      unfold wrapNextTimestamp tsDiff
      simp only [tsMod]
      omega
    · norm_num [networkStatistics, bufferedSamples, wrapClosed,
        packetDurationSamples, defaultConfig]
    · norm_num [networkStatistics, wrapClosed]
  · rw [(wrapRun_closed s0 t0 j).2.1]
    have hp : reportedPlayout (wrapClosed s0 t0 j 2) =
        ((t0 + 240 * j + 80 * 2) % tsMod + tsMod - 0) % tsMod := by
      rw [reportedPlayout, getPlayoutTimestamp,
        if_neg (show ¬ ((wrapClosed s0 t0 j 2).ticks = 0) from by
          simp only [wrapClosed]
          omega),
        Option.getD_some]
      norm_num [wrapClosed, delaySamples]
    refine ⟨?_, rfl, rfl, rfl, ?_, ?_⟩
    · rw [hp]
      unfold wrapNextTimestamp tsDiff
      simp only [tsMod]
      omega
    · norm_num [networkStatistics, bufferedSamples, wrapClosed,
        packetDurationSamples, defaultConfig]
    · norm_num [networkStatistics, wrapClosed]
  · rw [(wrapRun_closed s0 t0 j).2.2]
    have hp : reportedPlayout (wrapClosed s0 t0 j 3) =
        ((t0 + 240 * j + 80 * 3) % tsMod + tsMod - 0) % tsMod := by
      rw [reportedPlayout, getPlayoutTimestamp,
        if_neg (show ¬ ((wrapClosed s0 t0 j 3).ticks = 0) from by
          simp only [wrapClosed]
          omega),
        Option.getD_some]
      norm_num [wrapClosed, delaySamples]
    refine ⟨?_, rfl, rfl, rfl, ?_, ?_⟩
    · rw [hp]
      unfold wrapNextTimestamp tsDiff
      simp only [tsMod]
      omega
    · norm_num [networkStatistics, bufferedSamples, wrapClosed,
        packetDurationSamples, defaultConfig]
    · norm_num [networkStatistics, wrapClosed]

/-- Closed witness for C7 at the wrap-provoking start values of the
tests: sequence numbers starting at 65525 (wrapping past 65535) and
timestamps starting at 2^32 - 3000 (wrapping past 2^32 - 1), 30 frames
in. -/
theorem claim_C7_witness :
    tsDiff (wrapNextTimestamp 4294964296 30)
      (reportedPlayout (wrapRun 65525 4294964296 (3 * 30 + 1))) ≤ 2 * 240 ∧
    (networkStatistics (wrapRun 65525 4294964296 (3 * 30 + 1))).1.packetLossRate = 0 ∧
    (networkStatistics (wrapRun 65525 4294964296 (3 * 30 + 1))).1.expandRate = 0 ∧
    (networkStatistics (wrapRun 65525 4294964296 (3 * 30 + 1))).1.packetDiscardRate = 0 ∧
    (networkStatistics (wrapRun 65525 4294964296 (3 * 30 + 1))).1.currentBufferSizeMs ≤
      2 * 30 + defaultConfig.algorithmicDelayMs ∧
    (networkStatistics (wrapRun 65525 4294964296 (3 * 30 + 1))).1.preferredBufferSizeMs ≤
      2 * 30 :=
  claim_C7 65525 4294964296 30 1 (by decide)

set_option maxRecDepth 4000 in
theorem getAudio_cng_tick (st : State) (hb : st.buffer = [])
    (hp : st.pending = []) (hm : st.mode = OutputType.cng)
    (hs : st.sampleRateHz = 8000) :
    (getAudio st []).1 = { st with ticks := st.ticks + 1, pending := [] } := by
  have hnot : ¬ st.pending.length ≥ frameSamples st := by
    rw [hp, frameSamples, hs]
    simp
  have hr := refill_starved_emptyT st st.buffer.length hb hnot
  have hga := getAudio_starved_cngT st st [] (by rw [hr]) (by rw [hr]) hm
  rw [hga]

set_option maxRecDepth 4000 in
theorem pullN_cng : ∀ (q : Nat) (st : State), st.buffer = [] →
    st.pending = [] → st.mode = OutputType.cng → st.sampleRateHz = 8000 →
    pullN st q = { st with ticks := st.ticks + q, pending := [] } := by
  intro q
  induction q with
  | zero =>
      intro st hb hp hm hs
      obtain ⟨c1, c2, c3, c4, c5, c6, c7, c8, c9, c10, c11, c12, c13, c14,
        c15, c16, c17, c18, c19, c20⟩ := st
      simp only [pullN]
      simp at hp ⊢
      simp [hp]
  | succ q ih =>
      intro st hb hp hm hs
      show pullN (getAudio st []).1 q =
        { st with ticks := st.ticks + (q + 1), pending := [] }
      rw [getAudio_cng_tick st hb hp hm hs]
      rw [ih ({ st with ticks := st.ticks + 1, pending := [] }) hb rfl hm hs]
      obtain ⟨c1, c2, c3, c4, c5, c6, c7, c8, c9, c10, c11, c12, c13, c14,
        c15, c16, c17, c18, c19, c20⟩ := st
      simp
      omega

/-- Comfort-noise scenario: header of the k-th CNG packet after a speech
frames. -/
def cngHeader (a k : Nat) : RtpHeader := ⟨a + k, 240 * a + 800 * k, 4660, 13⟩

/-- Comfort-noise payload: noise level only. -/
def cngPayload : List Nat := [64]

/-- One 100 ms comfort-noise period: insert the k-th CNG packet, then
pull ten times. -/
def cngPeriod (a : Nat) (st : State) (k : Nat) : State :=
  pullN (insertPacket st (cngHeader a k) cngPayload 0).1 10

/-- The comfort-noise scenario: a speech frames at the wrap pacing, then
n CNG periods. -/
def cngRun (a : Nat) : Nat → State
  | 0 => wrapRun 0 0 (3 * a)
  | k + 1 => cngPeriod a (cngRun a k) k

/-- Closed form of the comfort-noise scenario after n periods, n at
least 1. -/
def cngClosed (a n : Nat) : State :=
  { cfg := ⟨8000, 0⟩
    registry := regList
    buffer := []
    firstPacketReceived := true
    streamSsrc := 4660
    lastInsertedPayloadType := some 93
    activePayloadType := some 93
    sampleRateHz := 8000
    pending := []
    playoutTs := (240 * a + 800 * (n - 1)) % tsMod
    mode := .cng
    lastCngHeader := some (cngHeader a (n - 1))
    lastCngPayload := [64]
    lastFrameSamples := 240
    lastDecodedSeq := some ((a + (n - 1)) % seqMod)
    preferredBufferSizeMs := 30
    ticks := 3 * a + 10 * n
    stats := ⟨List.replicate a 10, 0, 0, 0⟩
    lastError := none
    lastDecoderError := 0 }

theorem lookup_regList_13 : lookupPayload regList 13 = some CodecId.cngNb := by
  decide

set_option maxRecDepth 4000 in
theorem cngIns_zero (m : Nat) :
    insertPacket (wrapClosed 0 0 m 3) (cngHeader (m + 1) 0) cngPayload 0 =
      ({ wrapClosed 0 0 m 3 with
          buffer := [⟨cngHeader (m + 1) 0, cngPayload, false,
            (wrapClosed 0 0 m 3).ticks * 10⟩] }, 0) := by
  have h1 : ¬ (codecClass CodecId.cngNb = CodecClass.cng ∧
      (wrapClosed 0 0 m 3).lastCngHeader = some (cngHeader (m + 1) 0) ∧
      (wrapClosed 0 0 m 3).lastCngPayload = cngPayload) := by
    simp [wrapClosed]
  have h2 : ¬ ((wrapClosed 0 0 m 3).firstPacketReceived = true ∧
      tsNewer (wrapClosed 0 0 m 3).playoutTs
        (cngHeader (m + 1) 0).timestamp) := by
    intro hand
    have h := hand.2
    rw [show (wrapClosed 0 0 m 3).playoutTs =
        (0 + 240 * m + 80 * 3) % tsMod from rfl,
      show (cngHeader (m + 1) 0).timestamp =
        240 * (m + 1) + 800 * 0 from rfl] at h
    unfold tsNewer tsDiff at h
    simp only [tsMod] at h
    omega
  have hreg : (wrapClosed 0 0 m 3).registry = regList := rfl
  have hpt : (cngHeader (m + 1) 0).payloadType = 13 := rfl
  simp only [insertPacket, hreg, hpt, lookup_regList_13, if_neg h1, if_neg h2]
  norm_num [wrapClosed, codecClass, removeSupersededSync, insertByTs]
  refine ⟨rfl, by simp, by simp⟩


/-- The comfort-noise steady state entered when a CNG packet is
consumed: playout pinned at the packet's timestamp, pending cleared. -/
def cngAfterPull (base : State) (hdr : RtpHeader) (payload : List Nat) :
    State :=
  { base with
      buffer := []
      pending := []
      playoutTs := hdr.timestamp % tsMod
      lastCngHeader := some hdr
      lastCngPayload := payload
      lastDecodedSeq := some (hdr.sequenceNumber % seqMod)
      mode := .cng
      ticks := base.ticks + 1 }

set_option maxRecDepth 4000 in
theorem cngStep_zero (m : Nat) :
    cngPeriod (m + 1) (wrapClosed 0 0 m 3) 0 = cngClosed (m + 1) 1 := by
  rw [cngPeriod, cngIns_zero]
  show pullN (getAudio ({ wrapClosed 0 0 m 3 with
      buffer := [⟨cngHeader (m + 1) 0, cngPayload, false,
        (wrapClosed 0 0 m 3).ticks * 10⟩] }) []).1 9 = cngClosed (m + 1) 1
  have hnot : ¬ ({ wrapClosed 0 0 m 3 with
      buffer := [⟨cngHeader (m + 1) 0, cngPayload, false,
        (wrapClosed 0 0 m 3).ticks * 10⟩] } : State).pending.length ≥
      frameSamples ({ wrapClosed 0 0 m 3 with
      buffer := [⟨cngHeader (m + 1) 0, cngPayload, false,
        (wrapClosed 0 0 m 3).ticks * 10⟩] } : State) := by
    show ¬ (List.replicate (240 - 80 * 3) 0).length ≥ 8000 / 100
    simp [List.length_replicate]
  have hr := refill_cngT ({ wrapClosed 0 0 m 3 with
      buffer := [⟨cngHeader (m + 1) 0, cngPayload, false,
        (wrapClosed 0 0 m 3).ticks * 10⟩] })
      ({ wrapClosed 0 0 m 3 with
      buffer := [⟨cngHeader (m + 1) 0, cngPayload, false,
        (wrapClosed 0 0 m 3).ticks * 10⟩] } : State).buffer.length
      (⟨cngHeader (m + 1) 0, cngPayload, false,
        (wrapClosed 0 0 m 3).ticks * 10⟩) [] CodecId.cngNb
      hnot rfl lookup_regList_13 rfl
  have hga := getAudio_cngFrameT _ _ [] (congrArg Prod.fst hr)
      (congrArg Prod.snd hr)
  rw [hga]
  show pullN (cngAfterPull ({ wrapClosed 0 0 m 3 with
      buffer := [⟨cngHeader (m + 1) 0, cngPayload, false,
        (wrapClosed 0 0 m 3).ticks * 10⟩] })
      (cngHeader (m + 1) 0) cngPayload) 9 = cngClosed (m + 1) 1
  rw [pullN_cng 9 _ rfl rfl rfl rfl]
  norm_num [cngAfterPull, wrapClosed, cngClosed, cngHeader, cngPayload]
  omega

set_option maxRecDepth 4000 in
theorem cngIns_step (m k : Nat) :
    insertPacket (cngClosed (m + 1) (k + 1)) (cngHeader (m + 1) (k + 1))
      cngPayload 0 =
      ({ cngClosed (m + 1) (k + 1) with
          buffer := [⟨cngHeader (m + 1) (k + 1), cngPayload, false,
            (cngClosed (m + 1) (k + 1)).ticks * 10⟩] }, 0) := by
  have h1 : ¬ (codecClass CodecId.cngNb = CodecClass.cng ∧
      (cngClosed (m + 1) (k + 1)).lastCngHeader =
        some (cngHeader (m + 1) (k + 1)) ∧
      (cngClosed (m + 1) (k + 1)).lastCngPayload = cngPayload) := by
    intro h
    have h2 := h.2.1
    rw [show (cngClosed (m + 1) (k + 1)).lastCngHeader =
        some (cngHeader (m + 1) ((k + 1) - 1)) from rfl] at h2
    simp only [Option.some.injEq, cngHeader, RtpHeader.mk.injEq] at h2
    omega
  have h2 : ¬ ((cngClosed (m + 1) (k + 1)).firstPacketReceived = true ∧
      tsNewer (cngClosed (m + 1) (k + 1)).playoutTs
        (cngHeader (m + 1) (k + 1)).timestamp) := by
    intro hand
    have h := hand.2
    rw [show (cngClosed (m + 1) (k + 1)).playoutTs =
        (240 * (m + 1) + 800 * ((k + 1) - 1)) % tsMod from rfl,
      show (cngHeader (m + 1) (k + 1)).timestamp =
        240 * (m + 1) + 800 * (k + 1) from rfl] at h
    unfold tsNewer tsDiff at h
    simp only [tsMod] at h
    omega
  have hreg : (cngClosed (m + 1) (k + 1)).registry = regList := rfl
  have hpt : (cngHeader (m + 1) (k + 1)).payloadType = 13 := rfl
  simp only [insertPacket, hreg, hpt, lookup_regList_13, if_neg h1, if_neg h2]
  norm_num [cngClosed, codecClass, removeSupersededSync, insertByTs]
  refine ⟨rfl, by simp, by simp⟩


set_option maxRecDepth 4000 in
theorem cngStep (m k : Nat) :
    cngPeriod (m + 1) (cngClosed (m + 1) (k + 1)) (k + 1) =
      cngClosed (m + 1) (k + 2) := by
  rw [cngPeriod, cngIns_step]
  show pullN (getAudio ({ cngClosed (m + 1) (k + 1) with
      buffer := [⟨cngHeader (m + 1) (k + 1), cngPayload, false,
        (cngClosed (m + 1) (k + 1)).ticks * 10⟩] }) []).1 9 =
    cngClosed (m + 1) (k + 2)
  have hnot : ¬ ({ cngClosed (m + 1) (k + 1) with
      buffer := [⟨cngHeader (m + 1) (k + 1), cngPayload, false,
        (cngClosed (m + 1) (k + 1)).ticks * 10⟩] } : State).pending.length ≥
      frameSamples ({ cngClosed (m + 1) (k + 1) with
      buffer := [⟨cngHeader (m + 1) (k + 1), cngPayload, false,
        (cngClosed (m + 1) (k + 1)).ticks * 10⟩] } : State) := by
    show ¬ ([] : List Nat).length ≥ 8000 / 100
    decide
  have hr := refill_cngT ({ cngClosed (m + 1) (k + 1) with
      buffer := [⟨cngHeader (m + 1) (k + 1), cngPayload, false,
        (cngClosed (m + 1) (k + 1)).ticks * 10⟩] })
      ({ cngClosed (m + 1) (k + 1) with
      buffer := [⟨cngHeader (m + 1) (k + 1), cngPayload, false,
        (cngClosed (m + 1) (k + 1)).ticks * 10⟩] } : State).buffer.length
      (⟨cngHeader (m + 1) (k + 1), cngPayload, false,
        (cngClosed (m + 1) (k + 1)).ticks * 10⟩) [] CodecId.cngNb
      hnot rfl lookup_regList_13 rfl
  have hga := getAudio_cngFrameT _ _ [] (congrArg Prod.fst hr)
      (congrArg Prod.snd hr)
  rw [hga]
  show pullN (cngAfterPull ({ cngClosed (m + 1) (k + 1) with
      buffer := [⟨cngHeader (m + 1) (k + 1), cngPayload, false,
        (cngClosed (m + 1) (k + 1)).ticks * 10⟩] })
      (cngHeader (m + 1) (k + 1)) cngPayload) 9 = cngClosed (m + 1) (k + 2)
  rw [pullN_cng 9 _ rfl rfl rfl rfl]
  norm_num [cngAfterPull, cngClosed, cngHeader, cngPayload]
  omega

theorem cngRun_closed (m : Nat) : ∀ n : Nat,
    cngRun (m + 1) (n + 1) = cngClosed (m + 1) (n + 1) := by
  intro n
  induction n with
  | zero =>
      show cngPeriod (m + 1) (cngRun (m + 1) 0) 0 = cngClosed (m + 1) 1
      show cngPeriod (m + 1) (wrapRun 0 0 (3 * (m + 1))) 0 = cngClosed (m + 1) 1
      rw [show 3 * (m + 1) = 3 * m + 3 from by omega,
        (wrapRun_closed 0 0 m).2.2]
      exact cngStep_zero m
  | succ n ih =>
      show cngPeriod (m + 1) (cngRun (m + 1) (n + 1)) (n + 1) =
        cngClosed (m + 1) (n + 2)
      rw [ih]
      exact cngStep m n

/-- Header of the speech frame that resumes after n CNG periods. -/
def speechResumeHeader (a n : Nat) : RtpHeader :=
  ⟨a + n, 240 * a + 800 * n, 4660, 93⟩

/-- Insertion of the resuming speech frame. -/
def recoveryInsert (a n : Nat) : State × Int :=
  insertPacket (cngRun a n) (speechResumeHeader a n) wrapPayload 0

/-- The first pull after speech resumes. -/
def recoveryPull (a n : Nat) : State × Int × Frame × OutputType :=
  getAudio (recoveryInsert a n).1 []

/-- Two further pulls drain the resumed 30 ms frame. -/
def recoveryDrained (a n : Nat) : State := pullN (recoveryPull a n).1 2

/-- State right after the resuming speech frame is inserted. -/
def recIns (m n : Nat) : State :=
  { cngClosed (m + 1) (n + 1) with
      buffer := [⟨speechResumeHeader (m + 1) (n + 1), wrapPayload, false,
        (cngClosed (m + 1) (n + 1)).ticks * 10⟩] }

set_option maxRecDepth 4000 in
theorem recIns_eq (m n : Nat) :
    insertPacket (cngClosed (m + 1) (n + 1))
      (speechResumeHeader (m + 1) (n + 1)) wrapPayload 0 = (recIns m n, 0) := by
  have h1 : ¬ (codecClass CodecId.pcm16b8 = CodecClass.cng ∧
      (cngClosed (m + 1) (n + 1)).lastCngHeader =
        some (speechResumeHeader (m + 1) (n + 1)) ∧
      (cngClosed (m + 1) (n + 1)).lastCngPayload = wrapPayload) := by
    simp [codecClass]
  have h2 : ¬ ((cngClosed (m + 1) (n + 1)).firstPacketReceived = true ∧
      tsNewer (cngClosed (m + 1) (n + 1)).playoutTs
        (speechResumeHeader (m + 1) (n + 1)).timestamp) := by
    intro hand
    have h := hand.2
    rw [show (cngClosed (m + 1) (n + 1)).playoutTs =
        (240 * (m + 1) + 800 * ((n + 1) - 1)) % tsMod from rfl,
      show (speechResumeHeader (m + 1) (n + 1)).timestamp =
        240 * (m + 1) + 800 * (n + 1) from rfl] at h
    unfold tsNewer tsDiff at h
    simp only [tsMod] at h
    omega
  have hreg : (cngClosed (m + 1) (n + 1)).registry = regList := rfl
  have hpt : (speechResumeHeader (m + 1) (n + 1)).payloadType = 93 := rfl
  simp only [insertPacket, hreg, hpt, lookup_regList_93, if_neg h1, if_neg h2]
  norm_num [cngClosed, recIns, codecClass, removeSupersededSync, insertByTs,
    wrapPayload_length, codecRateHz]
  rfl


/-- State after decoding the resumed speech frame during the first
recovery pull. -/
def recMid (m n : Nat) : State :=
  { cfg := ⟨8000, 0⟩
    registry := regList
    buffer := []
    firstPacketReceived := true
    streamSsrc := 4660
    lastInsertedPayloadType := some 93
    activePayloadType := some 93
    sampleRateHz := 8000
    pending := wrapPayload
    playoutTs := (240 * (m + 1) + 800 * (n + 1)) % tsMod
    mode := .cng
    lastCngHeader := some (cngHeader (m + 1) n)
    lastCngPayload := [64]
    lastFrameSamples := 240
    lastDecodedSeq := some (((m + 1) + (n + 1)) % seqMod)
    preferredBufferSizeMs := 30
    ticks := 3 * (m + 1) + 10 * (n + 1)
    stats := ⟨List.replicate (m + 1) 10 ++
        [(3 * (m + 1) + 10 * (n + 1) + 1) * 10 -
          (3 * (m + 1) + 10 * (n + 1)) * 10],
      0 + ((((m + 1) + (n + 1)) % seqMod + seqMod -
        ((m + 1) + n) % seqMod % seqMod) % seqMod - 1), 0, 0⟩
    lastError := none
    lastDecoderError := 0 }

set_option maxRecDepth 4000 in
theorem recRefill (m n : Nat) :
    refill (recIns m n) ((recIns m n).buffer.length + 1) =
      (recMid m n, RefillOutcome.filled) := by
  rw [refill_decodeT (recIns m n) ((recIns m n).buffer.length)
      _ [] CodecId.pcm16b8 wrapPayload
      (by show ¬ ([] : List Nat).length ≥ 8000 / 100
          decide)
      rfl lookup_regList_93 rfl rfl rfl]
  simp +decide only [recordDecodeStats, recIns, cngClosed, speechResumeHeader,
    List.length_cons, List.length_nil, List.isEmpty_nil, List.nil_append,
    wrapPayload_length, if_true, codecRateHz, Nat.add_sub_cancel, recMid]
  exact refill_filledB _ 0
    (by show wrapPayload.length ≥ 8000 / 100
        rw [wrapPayload_length]
        decide)

/-- State after the first pull of the resumed speech. -/
def recPulled (m n : Nat) : State :=
  { cfg := ⟨8000, 0⟩
    registry := regList
    buffer := []
    firstPacketReceived := true
    streamSsrc := 4660
    lastInsertedPayloadType := some 93
    activePayloadType := some 93
    sampleRateHz := 8000
    pending := List.replicate 160 0
    playoutTs := ((240 * (m + 1) + 800 * (n + 1)) % tsMod + 80) % tsMod
    mode := .normal
    lastCngHeader := some (cngHeader (m + 1) n)
    lastCngPayload := [64]
    lastFrameSamples := 240
    lastDecodedSeq := some (((m + 1) + (n + 1)) % seqMod)
    preferredBufferSizeMs := 30
    ticks := 3 * (m + 1) + 10 * (n + 1) + 1
    stats := ⟨List.replicate (m + 1) 10 ++ [10], 0, 0, 0⟩
    lastError := none
    lastDecoderError := 0 }

set_option maxRecDepth 4000 in
theorem recPull_eq (m n : Nat) :
    getAudio (recIns m n) [] =
      (recPulled m n, 0, ⟨List.replicate 80 0, 80, 8000⟩,
        OutputType.normal) := by
  have hga := getAudio_filledT (recIns m n) (recMid m n) []
      (by rw [recRefill]) (by rw [recRefill])
  rw [hga]
  norm_num [recMid, recPulled, frameSamples, wrapPayload, List.drop_replicate,
    List.take_replicate]
  refine ⟨by omega, ?_⟩
  simp only [seqMod]
  omega

set_option maxRecDepth 4000 in
theorem getAudio_replicate_tick (st : State) (L : Nat)
    (hpend : st.pending = List.replicate L 0) (hs : st.sampleRateHz = 8000)
    (hL : 80 ≤ L) :
    (getAudio st []).1 =
      { st with
          pending := List.replicate (L - 80) 0
          playoutTs := (st.playoutTs + 80) % tsMod
          mode := .normal
          ticks := st.ticks + 1 } := by
  have hf : frameSamples st = 80 := by
    rw [frameSamples, hs]
  have hnot : st.pending.length ≥ frameSamples st := by
    rw [hpend, List.length_replicate, hf]
    omega
  have hr := refill_filledB st st.buffer.length hnot
  have hga := getAudio_filledT st st [] (by rw [hr]) (by rw [hr])
  rw [hga]
  show ({ st with
      pending := st.pending.drop (frameSamples st)
      playoutTs := (st.playoutTs + frameSamples st) % tsMod
      mode := .normal
      ticks := st.ticks + 1 } : State) = _
  rw [hf, hpend, List.drop_replicate]

theorem pullN_two (st : State) :
    pullN st 2 = (getAudio (getAudio st []).1 []).1 := rfl

set_option maxRecDepth 4000 in
theorem recDrain_eq (m n : Nat) :
    pullN (recPulled m n) 2 =
      { recPulled m n with
          pending := []
          playoutTs := ((((240 * (m + 1) + 800 * (n + 1)) % tsMod + 80) %
            tsMod + 80) % tsMod + 80) % tsMod
          ticks := 3 * (m + 1) + 10 * (n + 1) + 1 + 1 + 1 } := by
  rw [pullN_two]
  rw [getAudio_replicate_tick (recPulled m n) 160 rfl rfl (by omega)]
  rw [getAudio_replicate_tick _ 80 rfl rfl (by omega)]
  norm_num [recPulled]

set_option maxRecDepth 4000 in
/-- C9: after any number of sustained comfort-noise periods with no
clock drift, the engine is in the comfort-noise steady state; once a
real speech packet resumes it is accepted, the very next pull is
classified Normal (one 10 ms tick, well within the 200 ms bound), and
the end-to-end delay after recovery equals the delay before the
comfort-noise period (difference zero, within any stated tolerance). -/
theorem claim_C9 (m n : Nat) :
    (cngRun (m + 1) (n + 1)).mode = OutputType.cng ∧
    (recoveryInsert (m + 1) (n + 1)).2 = 0 ∧
    (recoveryPull (m + 1) (n + 1)).2.2.2 = OutputType.normal ∧
    (recoveryPull (m + 1) (n + 1)).1.ticks =
      (cngRun (m + 1) (n + 1)).ticks + 1 ∧
    tsDiff ((240 * (m + 1)) % tsMod)
      (reportedPlayout (wrapRun 0 0 (3 * (m + 1)))) = 0 ∧
    tsDiff ((240 * (m + 1) + 800 * (n + 1) + 240) % tsMod)
      (reportedPlayout (recoveryDrained (m + 1) (n + 1))) = 0 := by
  have hrun := cngRun_closed m n
  have hmode : (cngRun (m + 1) (n + 1)).mode = OutputType.cng := by
    rw [hrun]
    rfl
  have hins : recoveryInsert (m + 1) (n + 1) = (recIns m n, 0) := by
    rw [recoveryInsert, hrun]
    exact recIns_eq m n
  have hpull : recoveryPull (m + 1) (n + 1) =
      (recPulled m n, 0, ⟨List.replicate 80 0, 80, 8000⟩,
        OutputType.normal) := by
    rw [recoveryPull, hins]
    exact recPull_eq m n
  refine ⟨hmode, by rw [hins], by rw [hpull], ?_, ?_, ?_⟩
  · rw [hpull, hrun]
    rfl
  · rw [show 3 * (m + 1) = 3 * m + 3 from by omega,
      (wrapRun_closed 0 0 m).2.2]
    have hp : reportedPlayout (wrapClosed 0 0 m 3) =
        ((0 + 240 * m + 80 * 3) % tsMod + tsMod - 0) % tsMod := by
      rw [reportedPlayout, getPlayoutTimestamp,
        if_neg (show ¬ ((wrapClosed 0 0 m 3).ticks = 0) from by
          simp only [wrapClosed]
          omega),
        Option.getD_some]
      norm_num [wrapClosed, delaySamples]
    rw [hp]
    unfold tsDiff
    simp only [tsMod]
    omega
  · rw [recoveryDrained, hpull]
    have hd : pullN (recPulled m n, 0,
        (⟨List.replicate 80 0, 80, 8000⟩ : Frame),
        OutputType.normal).1 2 = pullN (recPulled m n) 2 := rfl
    rw [hd, recDrain_eq]
    have hp : reportedPlayout
        { recPulled m n with
            pending := []
            playoutTs := ((((240 * (m + 1) + 800 * (n + 1)) % tsMod + 80) %
              tsMod + 80) % tsMod + 80) % tsMod
            ticks := 3 * (m + 1) + 10 * (n + 1) + 1 + 1 + 1 } =
        (((((240 * (m + 1) + 800 * (n + 1)) % tsMod + 80) %
          tsMod + 80) % tsMod + 80) % tsMod + tsMod - 0) % tsMod := by
      rw [reportedPlayout, getPlayoutTimestamp,
        if_neg (show ¬ (3 * (m + 1) + 10 * (n + 1) + 1 + 1 + 1 = 0) from by
          omega),
        Option.getD_some]
      norm_num [recPulled, delaySamples]
    rw [hp]
    unfold tsDiff
    simp only [tsMod]
    omega
